import Mathlib

/-!
Verification development for an HL7 v2.x SIU^S12 parsing pipeline.

The definitions below are a shallow embedding of the Python sources
(`src/timestamps.py`, `src/tokenizer.py`, `src/extractors.py`,
`src/models.py`, `src/parser.py`).  Python strings are modelled as
`String`/`List Char`; Python exceptions are modelled with `Except`;
`None` is modelled with `Option`.  Modelling notes:

* Python `str.strip()` (no argument) strips the six ASCII whitespace
  characters; unicode whitespace is not modelled (all inputs of
  interest are ASCII).
* Python `str.isalnum` / `str.isspace` / regex `\d` are modelled with
  their ASCII meaning, matching every input the repository handles.
* Python `f"{n:02d}"` / `f"{n:04d}"` are modelled by `pad2` / `pad4`,
  which agree with Python for `n < 100` / `n < 10000`; every call site
  in the code satisfies those bounds because the numbers come from
  2-digit resp. 4-digit substrings.
-/

namespace HL7

/-- ASCII whitespace recognized by Python `str.strip()` / `str.isspace()`. -/
def pyIsSpace (c : Char) : Bool :=
  c = ' ' || c = '\t' || c = '\n' || c = '\x0d' || c = '\x0b' || c = '\x0c'

/-- Python `str.isalnum()` restricted to ASCII. -/
def pyIsAlnum (c : Char) : Bool :=
  c.isAlpha || c.isDigit

/-- Python `str.strip()` on a list of characters. -/
def pyStrip (l : List Char) : List Char :=
  ((l.dropWhile pyIsSpace).reverse.dropWhile pyIsSpace).reverse

/-- Python `str.strip()` on a string. -/
def strip (s : String) : String :=
  String.mk (pyStrip s.data)

/-- Python `str.split(sep)` for a single-character separator, on lists:
splits at every occurrence and keeps empty pieces (`"".split` gives `[""]`). -/
def splitOnChar (sep : Char) : List Char → List (List Char)
  | [] => [[]]
  | c :: rest =>
    match splitOnChar sep rest with
    | [] => [[]]
    | piece :: pieces =>
      if c = sep then [] :: piece :: pieces else (c :: piece) :: pieces

/-- Python `str.split(sep)` for a single-character separator, on strings. -/
def pySplit (s : String) (sep : Char) : List String :=
  (splitOnChar sep s.data).map String.mk

/-- Python `str.startswith(prefix)` on lists of characters. -/
def pyStartsWith (l p : List Char) : Bool :=
  l.take p.length = p

/-- Number denoted by a list of decimal digit characters (Python `int`
on a plain digit string). -/
def natOfDigits (l : List Char) : Nat :=
  l.foldl (fun a c => 10 * a + (c.toNat - 48)) 0

/-- Python `int(s)`: optional surrounding whitespace, optional sign, at
least one digit (numeric-literal underscores are not modelled; no input
of this repository contains them). -/
def pyInt? (l : List Char) : Option Int :=
  let s := pyStrip l
  match s with
  | '+' :: ds => if ds ≠ [] ∧ ds.all Char.isDigit then some (natOfDigits ds) else none
  | '-' :: ds => if ds ≠ [] ∧ ds.all Char.isDigit then some (-(natOfDigits ds : Int)) else none
  | ds => if ds ≠ [] ∧ ds.all Char.isDigit then some (natOfDigits ds) else none

/-- Python `f"{n:02d}"` for `n < 100`. -/
def pad2 (n : Nat) : List Char :=
  [Nat.digitChar (n / 10 % 10), Nat.digitChar (n % 10)]

/-- Python `f"{n:04d}"` for `n < 10000`. -/
def pad4 (n : Nat) : List Char :=
  [Nat.digitChar (n / 1000 % 10), Nat.digitChar (n / 100 % 10),
   Nat.digitChar (n / 10 % 10), Nat.digitChar (n % 10)]

/-- Error kinds of `src/exceptions.py` that the core can raise. -/
inductive HL7Error where
  | invalidMessageType (expected actual : String)
  | missingSegment (segmentType : String)
  | malformedSegment (segmentType reason : String)
  | invalidTimestamp (value reason : String)
  deriving DecidableEq, Repr

/-! ## Timestamp normalization (`src/timestamps.py`) -/

/-- Gregorian leap-year rule (as used by Python `datetime`). -/
def isLeap (y : Nat) : Bool :=
  (y % 4 = 0 && y % 100 ≠ 0) || y % 400 = 0

/-- Length of a month, matching Python `datetime`. -/
def daysInMonth (y m : Nat) : Nat :=
  if m = 2 then (if isLeap y then 29 else 28)
  else if m = 4 || m = 6 || m = 9 || m = 11 then 30
  else 31

/-- Checks of `_validate_date`: the explicit month/day range checks plus
the `datetime(year, month, day)` constructor, which requires
`1 ≤ year ≤ 9999` and `day ≤ daysInMonth`. -/
def validDate (y m d : Nat) : Bool :=
  1 ≤ m && m ≤ 12 && 1 ≤ d && d ≤ 31 && 1 ≤ y && y ≤ 9999 && d ≤ daysInMonth y m

/-- Checks of `_validate_time`. -/
def validTime (h mi s : Nat) : Bool :=
  h ≤ 23 && mi ≤ 59 && s ≤ 59

/-- Structural match of `HL7_TIMESTAMP_PATTERNS`: a run of digits,
optionally a dot plus a nonempty run of fraction digits (only at 14
digit-positions), optionally a sign plus exactly four timezone digits
(only at 12 or 14 digit-positions).  Returns the digit run, the
fraction digits and the timezone (sign, digits), or `none` when no
pattern of the list matches. -/
def matchTimestamp (l : List Char) :
    Option (List Char × Option (List Char) × Option (Char × List Char)) :=
  let ds := l.takeWhile Char.isDigit
  let rest := l.dropWhile Char.isDigit
  match rest with
  | [] =>
    if ds.length = 4 ∨ ds.length = 6 ∨ ds.length = 8 ∨ ds.length = 10 ∨
        ds.length = 12 ∨ ds.length = 14 then
      some (ds, none, none)
    else none
  | '.' :: r =>
    let fs := r.takeWhile Char.isDigit
    let r2 := r.dropWhile Char.isDigit
    if fs.isEmpty ∨ ds.length ≠ 14 then none
    else
      match r2 with
      | [] => some (ds, some fs, none)
      | c :: tzd =>
        if (c = '+' ∨ c = '-') ∧ tzd.length = 4 ∧ tzd.all Char.isDigit then
          some (ds, some fs, some (c, tzd))
        else none
  | c :: tzd =>
    if (c = '+' ∨ c = '-') ∧ tzd.length = 4 ∧ tzd.all Char.isDigit ∧
        (ds.length = 12 ∨ ds.length = 14) then
      some (ds, none, some (c, tzd))
    else none

/-- The `_convert_tz_offset` helper: `+0000`/`-0000` become `Z`,
otherwise `±HHMM` becomes `±HH:MM`. -/
def convertTzOffset (sg : Char) (tzd : List Char) : List Char :=
  if tzd = ['0', '0', '0', '0'] then ['Z']
  else sg :: (tzd.take 2 ++ ':' :: (tzd.drop 2).take 2)

/-- Fraction normalization of `_convert_matched_timestamp`:
`fraction[:3].ljust(3, "0")`. -/
def normFraction (f : List Char) : List Char :=
  f.take 3 ++ List.replicate (3 - f.length) '0'

/-- Output fragment `YYYY-MM`. -/
def fmtYM (y mo : Nat) : List Char :=
  pad4 y ++ '-' :: pad2 mo

/-- Output fragment `YYYY-MM-DD`. -/
def fmtDate (y mo da : Nat) : List Char :=
  fmtYM y mo ++ '-' :: pad2 da

/-- Output fragment `YYYY-MM-DDTHH:MM:SS`. -/
def fmtDT (y mo da ho mi se : Nat) : List Char :=
  fmtDate y mo da ++ 'T' :: (pad2 ho ++ ':' :: pad2 mi ++ ':' :: pad2 se)

/-- The date checks of `_validate_date`, raising `InvalidTimestampError`
on failure (the `ValueError` is caught and re-raised with the matched
value `v` by `_convert_matched_timestamp`). -/
def checkDate (y mo da : Nat) (v : String) : Except HL7Error Unit :=
  if validDate y mo da then .ok () else .error (.invalidTimestamp v "invalid date")

/-- The time checks of `_validate_time`, raising on failure. -/
def checkTime (ho mi se : Nat) (v : String) : Except HL7Error Unit :=
  if validTime ho mi se then .ok () else .error (.invalidTimestamp v "invalid time")

/-- Body of `_convert_matched_timestamp`: formats the matched groups
according to the matched pattern.  `v` is the full matched string (used
in error values). -/
def convertMatched (v : String) (ds : List Char) (frac : Option (List Char))
    (tz : Option (Char × List Char)) (assumeUtc : Bool) : Except HL7Error String :=
  let y := natOfDigits (ds.take 4)
  let mo := natOfDigits ((ds.drop 4).take 2)
  let da := natOfDigits ((ds.drop 6).take 2)
  let ho := natOfDigits ((ds.drop 8).take 2)
  let mi := natOfDigits ((ds.drop 10).take 2)
  let se := natOfDigits ((ds.drop 12).take 2)
  let tzSuffix : List Char := if assumeUtc then ['Z'] else []
  match frac, tz with
  | none, none =>
    if ds.length = 4 then
      .ok (String.mk (pad4 y))
    else if ds.length = 6 then
      .ok (String.mk (fmtYM y mo))
    else if ds.length = 8 then do
      checkDate y mo da v
      .ok (String.mk (fmtDate y mo da))
    else if ds.length = 10 then do
      checkDate y mo da v
      checkTime ho 0 0 v
      .ok (String.mk (fmtDT y mo da ho 0 0 ++ tzSuffix))
    else if ds.length = 12 then do
      checkDate y mo da v
      checkTime ho mi 0 v
      .ok (String.mk (fmtDT y mo da ho mi 0 ++ tzSuffix))
    else if ds.length = 14 then do
      checkDate y mo da v
      checkTime ho mi se v
      .ok (String.mk (fmtDT y mo da ho mi se ++ tzSuffix))
    else .error (.invalidTimestamp v "unhandled format type")
  | some f, none =>
    if ds.length = 14 then do
      checkDate y mo da v
      checkTime ho mi se v
      .ok (String.mk (fmtDT y mo da ho mi se ++ '.' :: normFraction f ++ tzSuffix))
    else .error (.invalidTimestamp v "unhandled format type")
  | none, some (sg, tzd) =>
    if ds.length = 12 then do
      checkDate y mo da v
      checkTime ho mi 0 v
      .ok (String.mk (fmtDT y mo da ho mi 0 ++ convertTzOffset sg tzd))
    else if ds.length = 14 then do
      checkDate y mo da v
      checkTime ho mi se v
      .ok (String.mk (fmtDT y mo da ho mi se ++ convertTzOffset sg tzd))
    else .error (.invalidTimestamp v "unhandled format type")
  | some f, some (sg, tzd) =>
    if ds.length = 14 then do
      checkDate y mo da v
      checkTime ho mi se v
      .ok (String.mk (fmtDT y mo da ho mi se ++ '.' :: normFraction f ++ convertTzOffset sg tzd))
    else .error (.invalidTimestamp v "unhandled format type")

/-- Embedding of `parse_hl7_timestamp`: `.ok none` for blank input,
`.ok (some s)` for a normalized timestamp, `.error` for
`InvalidTimestampError`. -/
def parse_hl7_timestamp (value : String) (assumeUtc : Bool) : Except HL7Error (Option String) :=
  let v := pyStrip value.data
  if v.isEmpty then .ok none
  else
    match matchTimestamp v with
    | some (ds, f, tz) => (convertMatched (String.mk v) ds f tz assumeUtc).map some
    | none => .error (.invalidTimestamp (String.mk v)
        "does not match any known HL7 timestamp format")

/-- Embedding of `parse_hl7_date`. -/
def parse_hl7_date (value : String) : Except HL7Error (Option String) :=
  let v := pyStrip value.data
  if v.isEmpty then .ok none
  else if v.length = 8 then
    match pyInt? (v.take 4), pyInt? ((v.drop 4).take 2), pyInt? ((v.drop 6).take 2) with
    | some y, some m, some d =>
      if 0 ≤ y ∧ 0 ≤ m ∧ 0 ≤ d ∧ validDate y.toNat m.toNat d.toNat then
        .ok (some (String.mk (fmtDate y.toNat m.toNat d.toNat)))
      else .error (.invalidTimestamp (String.mk v) "invalid date")
    | _, _, _ => .error (.invalidTimestamp (String.mk v) "invalid literal")
  else
    match parse_hl7_timestamp (String.mk v) false with
    | .error e => .error e
    | .ok none => .ok none
    | .ok (some r) => .ok (some (if r.data.length ≥ 10 then String.mk (r.data.take 10) else r))

/-! ## Domain models (`src/models.py`) -/

/-- Values of the plain hierarchical output records (`to_dict`): strings
or nested records. -/
inductive DVal where
  | s (v : String)
  | d (entries : List (String × DVal))

/-- Patient demographic information extracted from a PID segment. -/
structure Patient where
  id : String
  first_name : Option String := none
  last_name : Option String := none
  dob : Option String := none
  gender : Option String := none
  deriving DecidableEq, Repr

/-- Healthcare provider information extracted from a PV1 segment. -/
structure Provider where
  id : String
  name : Option String := none
  deriving DecidableEq, Repr

/-- The principal output entity, one per parsed message. -/
structure Appointment where
  appointment_id : String
  appointment_datetime : Option String := none
  patient : Option Patient := none
  provider : Option Provider := none
  location : Option String := none
  reason : Option String := none
  message_control_id : Option String := none
  message_datetime : Option String := none
  deriving DecidableEq, Repr

/-- One appointment plus non-fatal warnings and the source index. -/
structure ParseResult where
  appointment : Appointment
  warnings : List String := []
  source_message_index : Nat := 0
  deriving DecidableEq, Repr

/-- Entry list for one optional string value (omitted when `none`): the
dataclass `to_dict` filters on `is not None`. -/
def optEntry (k : String) : Option String → List (String × DVal)
  | some v => [(k, DVal.s v)]
  | none => []

/-- Entry list for one optional string guarded by Python truthiness
(omitted when `none` or the empty string). -/
def strEntryIfTruthy (k : String) : Option String → List (String × DVal)
  | some v => if v = "" then [] else [(k, DVal.s v)]
  | none => []

/-- The `Patient.to_dict` method (`id` is always present, the rest only
when not `None`). -/
def Patient.to_dict (p : Patient) : List (String × DVal) :=
  ("id", DVal.s p.id) :: optEntry "first_name" p.first_name
    ++ optEntry "last_name" p.last_name
    ++ optEntry "dob" p.dob
    ++ optEntry "gender" p.gender

/-- The `Provider.to_dict` method. -/
def Provider.to_dict (p : Provider) : List (String × DVal) :=
  ("id", DVal.s p.id) :: optEntry "name" p.name

/-- The `Appointment.to_dict` method: each field is added only when
truthy (nonempty string / present object). -/
def Appointment.to_dict (a : Appointment) : List (String × DVal) :=
  (if a.appointment_id = "" then [] else [("appointment_id", DVal.s a.appointment_id)])
    ++ strEntryIfTruthy "appointment_datetime" a.appointment_datetime
    ++ (match a.patient with
        | some p => [("patient", DVal.d p.to_dict)]
        | none => [])
    ++ (match a.provider with
        | some p => [("provider", DVal.d p.to_dict)]
        | none => [])
    ++ strEntryIfTruthy "location" a.location
    ++ strEntryIfTruthy "reason" a.reason
    ++ strEntryIfTruthy "message_control_id" a.message_control_id
    ++ strEntryIfTruthy "message_datetime" a.message_datetime

/-- Keys of an output record. -/
def dictKeys (l : List (String × DVal)) : List String :=
  l.map Prod.fst

/-! ## Tokenizer (`src/tokenizer.py`) -/

/-- The five wire-format separator characters, with the module defaults. -/
structure Delimiters where
  field : Char := '|'
  component : Char := '^'
  repetition : Char := '~'
  escape : Char := '\\'
  subcomponent : Char := '&'
  deriving DecidableEq, Repr

/-- A parsed HL7 segment. -/
structure Segment where
  segment_type : String
  fields : List String
  raw_text : String
  deriving DecidableEq, Repr

/-- The `Segment.get_field` method: default on a negative or
out-of-range index, and `fields[index] or default` otherwise. -/
def Segment.get_field (seg : Segment) (index : Int) (default : String := "") : String :=
  if index < 0 ∨ (seg.fields.length : Int) ≤ index then default
  else
    let v := seg.fields.getD index.toNat ""
    if v = "" then default else v

/-- The `Segment.get_component` method. -/
def Segment.get_component (seg : Segment) (field_index component_index : Int)
    (separator : Char := '^') (default : String := "") : String :=
  let fv := seg.get_field field_index ""
  if fv = "" then default
  else
    let comps := pySplit fv separator
    if component_index < 0 ∨ (comps.length : Int) ≤ component_index then default
    else
      let v := comps.getD component_index.toNat ""
      if v = "" then default else v

/-- The `Segment.get_subcomponent` method. -/
def Segment.get_subcomponent (seg : Segment)
    (field_index component_index subcomponent_index : Int)
    (component_sep : Char := '^') (subcomponent_sep : Char := '&')
    (default : String := "") : String :=
  let comp := seg.get_component field_index component_index component_sep ""
  if comp = "" then default
  else
    let subs := pySplit comp subcomponent_sep
    if subcomponent_index < 0 ∨ (subs.length : Int) ≤ subcomponent_index then default
    else
      let v := subs.getD subcomponent_index.toNat ""
      if v = "" then default else v

/-- The `_normalize_line_endings` method: `replace("\r\n", "\n")` then
`replace("\r", "\n")`, fused into one left-to-right pass. -/
def normalizeLineEndings : List Char → List Char
  | [] => []
  | '\r' :: '\n' :: rest => '\n' :: normalizeLineEndings rest
  | '\r' :: rest => '\n' :: normalizeLineEndings rest
  | c :: rest => c :: normalizeLineEndings rest

/-- Line-ending normalization on strings. -/
def normalizeStr (s : String) : String :=
  String.mk (normalizeLineEndings s.data)

/-- The `_detect_delimiters` method: mutates the current delimiters from
the first MSH line; positions missing because the line is short keep
their current values. -/
def detectDelimiters (d : Delimiters) (raws : List String) : Delimiters :=
  match raws.find? (fun r => pyStartsWith r.data ['M', 'S', 'H']) with
  | none => d
  | some raw =>
    let l := raw.data
    let d1 := if 4 ≤ l.length then { d with field := l.getD 3 ' ' } else d
    if 8 ≤ l.length then
      { d1 with component := l.getD 4 ' ', repetition := l.getD 5 ' ',
                escape := l.getD 6 ' ', subcomponent := l.getD 7 ' ' }
    else d1

/-- A delimiter character the validator rejects. -/
def badDelimChar (c : Char) : Bool :=
  pyIsAlnum c || pyIsSpace c

/-- The `_validate_delimiters` method: first the per-character check in
name order, then the duplicate check in insertion order. -/
def validateDelimiters (d : Delimiters) : Except HL7Error Unit :=
  if badDelimChar d.field then .error (.malformedSegment "MSH" "Invalid field delimiter")
  else if badDelimChar d.component then .error (.malformedSegment "MSH" "Invalid component delimiter")
  else if badDelimChar d.repetition then .error (.malformedSegment "MSH" "Invalid repetition delimiter")
  else if badDelimChar d.escape then .error (.malformedSegment "MSH" "Invalid escape delimiter")
  else if badDelimChar d.subcomponent then .error (.malformedSegment "MSH" "Invalid subcomponent delimiter")
  else if d.component = d.field then .error (.malformedSegment "MSH" "Conflicting delimiter")
  else if d.repetition = d.field ∨ d.repetition = d.component then
    .error (.malformedSegment "MSH" "Conflicting delimiter")
  else if d.escape = d.field ∨ d.escape = d.component ∨ d.escape = d.repetition then
    .error (.malformedSegment "MSH" "Conflicting delimiter")
  else if d.subcomponent = d.field ∨ d.subcomponent = d.component ∨
      d.subcomponent = d.repetition ∨ d.subcomponent = d.escape then
    .error (.malformedSegment "MSH" "Conflicting delimiter")
  else .ok ()

/-- The `_parse_msh_segment` method: the field separator itself becomes
field index 1. -/
def parseMshSegment (d : Delimiters) (raw : String) : Segment :=
  let sep := if 3 < raw.data.length then raw.data.getD 3 ' ' else d.field
  let parts := pySplit raw sep
  let fields :=
    match parts with
    | [] => ["MSH", String.mk [sep]]
    | p0 :: rest => p0 :: String.mk [sep] :: rest
  { segment_type := "MSH", fields := fields, raw_text := raw }

/-- The `_parse_segment` method. -/
def parseSegment (d : Delimiters) (raw : String) : Option Segment :=
  if raw = "" then none
  else if pyStartsWith raw.data ['M', 'S', 'H'] then some (parseMshSegment d raw)
  else
    match pySplit raw d.field with
    | [] => none
    | f0 :: rest => some { segment_type := f0, fields := f0 :: rest, raw_text := raw }

/-- The `HL7Tokenizer.tokenize` method.  The tokenizer object's mutable
`delimiters` attribute is modelled by threading the state in and out. -/
def tokenize (d : Delimiters) (text : String) : Except HL7Error (Delimiters × List Segment) :=
  let raws := ((pySplit (normalizeStr text) '\n').map strip).filter (fun s => s ≠ "")
  if raws.isEmpty then .ok (d, [])
  else
    let d2 := detectDelimiters d raws
    match validateDelimiters d2 with
    | .error e => .error e
    | .ok () => .ok (d2, raws.filterMap (parseSegment d2))

/-- One step of the grouping loop of `split_hl7_messages`. -/
def splitStep (acc : List String × List String) (line : String) : List String × List String :=
  let msgs := acc.1
  let cur := acc.2
  let s := strip line
  if s = "" then (msgs, cur)
  else if pyStartsWith s.data ['M', 'S', 'H'] then
    ((if cur.isEmpty then msgs else msgs ++ [String.intercalate "\n" cur]), [s])
  else if cur.isEmpty then (msgs, cur)
  else (msgs, cur ++ [s])

/-- The `split_hl7_messages` function. -/
def split_hl7_messages (content : String) : List String :=
  let lines := pySplit (normalizeStr content) '\n'
  let acc := lines.foldl splitStep ([], [])
  if acc.2.isEmpty then acc.1 else acc.1 ++ [String.intercalate "\n" acc.2]

/-! ## Segment extractors (`src/extractors.py`) -/

/-- The `MSHExtractor.extract_message_type` method: MSH-9 split on the
component separator, component 0 = type, component 1 = trigger. -/
def extract_message_type (d : Delimiters) (seg : Segment) : String × String :=
  let f := seg.get_field 9 ""
  if f = "" then ("", "")
  else
    let comps := pySplit f d.component
    (comps.getD 0 "", comps.getD 1 "")

/-- The `MSHExtractor.extract_control_id` method (MSH-10 verbatim). -/
def extract_control_id (seg : Segment) : String :=
  seg.get_field 10 ""

/-- The `MSHExtractor.extract_timestamp` method (MSH-7, normalization
failures swallowed). -/
def extract_msh_timestamp (seg : Segment) : Option String :=
  let raw := seg.get_field 7 ""
  if raw = "" then none
  else
    match parse_hl7_timestamp raw true with
    | .ok v => v
    | .error _ => none

/-- The `SCHExtractor.extract_appointment_id` method: filler id (SCH-2
component 0) first, then placer id (SCH-1 component 0), else empty. -/
def extract_appointment_id (d : Delimiters) (seg : Segment) : String :=
  let filler := seg.get_component 2 0 d.component ""
  if filler ≠ "" then filler
  else seg.get_component 1 0 d.component ""

/-- The field loop of `SCHExtractor.extract_appointment_datetime`:
within each timing field, try component index 3 and then component 0;
a successful `parse_hl7_timestamp` call returns its value (even `None`)
immediately, a raised error falls through. -/
def extractTimingFrom (d : Delimiters) (seg : Segment) : List Int → Option String
  | [] => none
  | fi :: rest =>
    let k := extractTimingFrom d seg rest
    let tf := seg.get_field fi ""
    if tf = "" then k
    else
      let comps := pySplit tf d.component
      let s2 :=
        if comps.getD 0 "" ≠ "" then
          match parse_hl7_timestamp (comps.getD 0 "") true with
          | .ok v => v
          | .error _ => k
        else k
      if 3 < comps.length ∧ comps.getD 3 "" ≠ "" then
        match parse_hl7_timestamp (comps.getD 3 "") true with
        | .ok v => v
        | .error _ => s2
      else s2

/-- The `SCHExtractor.extract_appointment_datetime` method (fields
SCH-10 then SCH-11). -/
def extract_appointment_datetime (d : Delimiters) (seg : Segment) : Option String :=
  extractTimingFrom d seg [10, 11]

/-- The field loop of `SCHExtractor.extract_reason`. -/
def extractReasonFrom (d : Delimiters) (seg : Segment) : List Int → String
  | [] => ""
  | fi :: rest =>
    let k := extractReasonFrom d seg rest
    let rf := seg.get_field fi ""
    if rf = "" then k
    else
      let comps := pySplit rf d.component
      if 1 < comps.length ∧ comps.getD 1 "" ≠ "" then String.mk (pyStrip (comps.getD 1 "").data)
      else if comps.getD 0 "" ≠ "" then String.mk (pyStrip (comps.getD 0 "").data)
      else k

/-- The `SCHExtractor.extract_reason` method (fields SCH-6 then SCH-7). -/
def extract_reason (d : Delimiters) (seg : Segment) : String :=
  extractReasonFrom d seg [6, 7]

/-- The `SCHExtractor.extract_location` method (SCH-23). -/
def extract_sch_location (d : Delimiters) (seg : Segment) : String :=
  let loc := seg.get_field 23 ""
  if loc = "" then ""
  else
    let comps := pySplit loc d.component
    let parts := ((comps.take 3).map (fun c => String.mk (pyStrip c.data))).filter (fun c => c ≠ "")
    if parts.isEmpty then String.mk (pyStrip loc.data) else String.intercalate " " parts

/-- The `PIDExtractor._extract_patient_id` method (PID-3, first
repetition, first component). -/
def extract_patient_id (d : Delimiters) (seg : Segment) : String :=
  let f := seg.get_field 3 ""
  if f = "" then ""
  else
    let firstRep := (pySplit f d.repetition).getD 0 ""
    (pySplit firstRep d.component).getD 0 ""

/-- The `PIDExtractor._extract_name` method: returns
(given name, family name); the family component keeps only its first
subcomponent. -/
def extract_name (d : Delimiters) (seg : Segment) : String × String :=
  let f := seg.get_field 5 ""
  if f = "" then ("", "")
  else
    let firstRep := (pySplit f d.repetition).getD 0 ""
    let comps := pySplit firstRep d.component
    let family := comps.getD 0 ""
    let given := comps.getD 1 ""
    let family2 :=
      if family.data.contains d.subcomponent then (pySplit family d.subcomponent).getD 0 ""
      else family
    (given, family2)

/-- The `PIDExtractor._extract_dob` method (PID-7, failures swallowed). -/
def extract_dob (seg : Segment) : Option String :=
  let f := seg.get_field 7 ""
  if f = "" then none
  else
    match parse_hl7_date f with
    | .ok v => v
    | .error _ => none

/-- The `PIDExtractor._extract_gender` method (PID-8 verbatim). -/
def extract_gender (seg : Segment) : String :=
  seg.get_field 8 ""

/-- The `PIDExtractor.extract_patient` method. -/
def extract_patient (d : Delimiters) (seg : Segment) : Patient :=
  let n := extract_name d seg
  { id := extract_patient_id d seg,
    first_name := if n.1 = "" then none else some n.1,
    last_name := if n.2 = "" then none else some n.2,
    dob := extract_dob seg,
    gender := if extract_gender seg = "" then none else some (extract_gender seg) }

/-- The `PV1Extractor._extract_xcn_field` method: (id, display name),
the display name assembled from prefix, degree, given, middle, family,
suffix in that order. -/
def extract_xcn_field (d : Delimiters) (seg : Segment) (fi : Int) : String × String :=
  let f := seg.get_field fi ""
  if f = "" then ("", "")
  else
    let firstRep := (pySplit f d.repetition).getD 0 ""
    let comps := pySplit firstRep d.component
    let pid := comps.getD 0 ""
    let family := comps.getD 1 ""
    let given := comps.getD 2 ""
    let middle := comps.getD 3 ""
    let sfx := comps.getD 4 ""
    let pfx := comps.getD 5 ""
    let dgr := comps.getD 6 ""
    let nameParts :=
      (if pfx ≠ "" then [pfx] else []) ++ (if dgr ≠ "" then [dgr] else [])
        ++ (if given ≠ "" then [given] else []) ++ (if middle ≠ "" then [middle] else [])
        ++ (if family ≠ "" then [family] else []) ++ (if sfx ≠ "" then [sfx] else [])
    (pid, String.intercalate " " nameParts)

/-- The `PV1Extractor.extract_provider` method: PV1-7 (attending), then
PV1-17 (admitting), then PV1-8 (referring); each fallback replaces both
id and name. -/
def extract_provider (d : Delimiters) (seg : Segment) : Option Provider :=
  let a := extract_xcn_field d seg 7
  let b := if a.1 = "" then extract_xcn_field d seg 17 else a
  let c := if b.1 = "" then extract_xcn_field d seg 8 else b
  if c.1 = "" ∧ c.2 = "" then none
  else some { id := if c.1 = "" then "UNKNOWN" else c.1,
              name := if c.2 = "" then none else some c.2 }

/-- The `PV1Extractor.extract_location` method (PV1-3). -/
def extract_pv1_location (d : Delimiters) (seg : Segment) : String :=
  let f := seg.get_field 3 ""
  if f = "" then ""
  else
    let comps := pySplit f d.component
    let p1 := if 3 < comps.length ∧ comps.getD 3 "" ≠ "" then [comps.getD 3 ""] else []
    let p2 := if comps.getD 0 "" ≠ "" then [comps.getD 0 ""] else []
    let p3 :=
      if 1 < comps.length ∧ comps.getD 1 "" ≠ "" then
        let room := String.mk (pyStrip (comps.getD 1 "").data)
        if pyStartsWith (room.data.map Char.toLower) ['r', 'o', 'o', 'm'] then [room]
        else ["Room " ++ room]
      else []
    let p4 := if 2 < comps.length ∧ comps.getD 2 "" ≠ "" then ["Bed " ++ comps.getD 2 ""] else []
    String.intercalate " " (p1 ++ p2 ++ p3 ++ p4)

/-! ## Parser (`src/parser.py`) -/

/-- Warning recorded when the SCH segment is absent in lenient mode. -/
def schWarn : String := "SCH segment not found - appointment details may be incomplete"

/-- Warning recorded when the PID segment is absent in lenient mode. -/
def pidWarn : String := "PID segment not found - patient information unavailable"

/-- Warning recorded when the PV1 segment is absent. -/
def pv1Warn : String := "PV1 segment not found - provider information unavailable"

/-- The `_build_segment_map` method: type → first occurrence. -/
def buildSegmentMap (segs : List Segment) : List (String × Segment) :=
  segs.foldl
    (fun m seg => if (m.lookup seg.segment_type).isSome then m else m ++ [(seg.segment_type, seg)])
    []

/-- The `_validate_message_type` method. -/
def validateMessageType (d : Delimiters) (m : List (String × Segment)) : Except HL7Error Unit :=
  match m.lookup "MSH" with
  | none => .error (.missingSegment "MSH")
  | some msh =>
    if msh.fields.length < 3 ∨ msh.fields.getD 2 "" = "" then
      .error (.malformedSegment "MSH" "MSH segment missing required encoding characters")
    else
      let te := extract_message_type d msh
      let actual := if te.2 = "" then te.1 else te.1 ++ "^" ++ te.2
      if te.1 ≠ "SIU" then .error (.invalidMessageType "SIU^S12" actual)
      else if te.2 ≠ "" ∧ te.2 ≠ "S12" then .error (.invalidMessageType "SIU^S12" actual)
      else .ok ()

/-- The extraction part of `_parse_single_message` (everything after
message-type validation). -/
def extractAppointment (d : Delimiters) (m : List (String × Segment)) (strict : Bool)
    (idx : Nat) : Except HL7Error ParseResult := do
  let (appointment_id, appointment_datetime, reason, location, w1) ←
    match m.lookup "SCH" with
    | some sch =>
      pure (extract_appointment_id d sch, extract_appointment_datetime d sch,
            extract_reason d sch, extract_sch_location d sch, ([] : List String))
    | none =>
      if strict then throw (.missingSegment "SCH")
      else pure ("UNKNOWN", none, "", "", [schWarn])
  let (patient, w2) ←
    match m.lookup "PID" with
    | some pid => pure (some (extract_patient d pid), ([] : List String))
    | none =>
      if strict then throw (.missingSegment "PID")
      else pure (none, [pidWarn])
  let (provider, location2, w3) :=
    match m.lookup "PV1" with
    | some pv1 =>
      (extract_provider d pv1,
       (if location = "" then extract_pv1_location d pv1 else location), ([] : List String))
    | none => (none, location, [pv1Warn])
  let (message_control_id, message_datetime) :=
    match m.lookup "MSH" with
    | some msh => (some (extract_control_id msh), extract_msh_timestamp msh)
    | none => (none, none)
  pure { appointment :=
           { appointment_id := appointment_id,
             appointment_datetime := appointment_datetime,
             patient := patient,
             provider := provider,
             location := if location2 = "" then none else some location2,
             reason := if reason = "" then none else some reason,
             message_control_id := message_control_id,
             message_datetime := message_datetime },
         warnings := w1 ++ w2 ++ w3,
         source_message_index := idx }

/-- The `_parse_single_message` method, threading the tokenizer's
delimiter state. -/
def parseSingleMessage (d : Delimiters) (text : String) (idx : Nat) (strict : Bool) :
    Except HL7Error (Delimiters × ParseResult) := do
  let (d2, segs) ← tokenize d text
  if segs.isEmpty then throw (.malformedSegment "" "Message contains no valid segments")
  else
    let m := buildSegmentMap segs
    match validateMessageType d2 m with
    | .error e => throw e
    | .ok () => do
      let r ← extractAppointment d2 m strict idx
      pure (d2, r)

/-- The loop of `SIUParser.parse`: messages processed in order with the
shared tokenizer state; the first raised error aborts. -/
def parseLoop (strict : Bool) : Delimiters → List String → Nat → List ParseResult →
    Except HL7Error (List ParseResult)
  | _, [], _, acc => .ok acc
  | d, t :: ts, idx, acc =>
    match parseSingleMessage d t idx strict with
    | .error e => .error e
    | .ok (d2, r) => parseLoop strict d2 ts (idx + 1) (acc ++ [r])

/-- The `parse_hl7_message` convenience function: a fresh `SIUParser`
(fresh tokenizer with default delimiters) parsing `content`. -/
def parse_hl7_message (content : String) (strict : Bool) : Except HL7Error (List ParseResult) :=
  if strip content = "" then .ok []
  else parseLoop strict {} (split_hl7_messages content) 0 []

/-- Decidable equality of fallible results, for evaluating concrete
runs. -/
instance {ε α : Type} [DecidableEq ε] [DecidableEq α] : DecidableEq (Except ε α) := fun a b =>
  match a, b with
  | .ok x, .ok y =>
    if h : x = y then .isTrue (congrArg Except.ok h)
    else .isFalse (fun hc => h (Except.ok.inj hc))
  | .error x, .error y =>
    if h : x = y then .isTrue (congrArg Except.error h)
    else .isFalse (fun hc => h (Except.error.inj hc))
  | .ok _, .error _ => .isFalse (fun hc => Except.noConfusion hc)
  | .error _, .ok _ => .isFalse (fun hc => Except.noConfusion hc)

/-- Whether a fallible computation succeeded (no exception raised). -/
def isOkB {α : Type} : Except HL7Error α → Bool
  | .ok _ => true
  | .error _ => false

/-- Whether the timestamp normalizer accepts a value (returns without
raising `InvalidTimestampError`), under the default UTC assumption. -/
def acceptedTs (s : String) : Bool :=
  isOkB (parse_hl7_timestamp s true)

/-- Name of the Python exception class a result corresponds to. -/
def errCtor {α : Type} : Except HL7Error α → String
  | .ok _ => "ok"
  | .error (.invalidMessageType _ _) => "InvalidMessageTypeError"
  | .error (.missingSegment _) => "MissingSegmentError"
  | .error (.malformedSegment _ _) => "MalformedSegmentError"
  | .error (.invalidTimestamp _ _) => "InvalidTimestampError"

/-- Composed HL7 wire timestamp of year precision (`YYYY`). -/
def tsY (y : Nat) : List Char := pad4 y

/-- Composed HL7 wire timestamp of year+month precision (`YYYYMM`). -/
def tsYM (y mo : Nat) : List Char := pad4 y ++ pad2 mo

/-- Composed HL7 wire timestamp of date precision (`YYYYMMDD`). -/
def tsYMD (y mo da : Nat) : List Char := pad4 y ++ (pad2 mo ++ pad2 da)

/-- Composed HL7 wire timestamp of date+hour precision (`YYYYMMDDHH`). -/
def tsYMDH (y mo da ho : Nat) : List Char := pad4 y ++ (pad2 mo ++ (pad2 da ++ pad2 ho))

/-- Composed HL7 wire timestamp of date+hour+minute precision. -/
def tsYMDHM (y mo da ho mi : Nat) : List Char :=
  pad4 y ++ (pad2 mo ++ (pad2 da ++ (pad2 ho ++ pad2 mi)))

/-- Composed HL7 wire timestamp of full date+time precision. -/
def tsYMDHMS (y mo da ho mi se : Nat) : List Char :=
  pad4 y ++ (pad2 mo ++ (pad2 da ++ (pad2 ho ++ (pad2 mi ++ pad2 se))))

/-! ## Helper lemmas -/

theorem digitChar_isDigit {n : Nat} (h : n < 10) : (Nat.digitChar n).isDigit = true := by
  interval_cases n <;> decide

theorem digitChar_toNat {n : Nat} (h : n < 10) : (Nat.digitChar n).toNat = 48 + n := by
  interval_cases n <;> decide

theorem pad2_all_digits (n : Nat) : ∀ c ∈ pad2 n, c.isDigit = true := by
  intro c hc
  simp only [pad2, List.mem_cons, List.mem_singleton, List.not_mem_nil, or_false] at hc
  rcases hc with h | h <;> subst h <;> exact digitChar_isDigit (Nat.mod_lt _ (by omega))

theorem pad4_all_digits (n : Nat) : ∀ c ∈ pad4 n, c.isDigit = true := by
  intro c hc
  simp only [pad4, List.mem_cons, List.not_mem_nil, or_false] at hc
  rcases hc with h | h | h | h <;> subst h <;> exact digitChar_isDigit (Nat.mod_lt _ (by omega))

theorem isDigit_not_space {c : Char} (h : c.isDigit = true) : pyIsSpace c = false := by
  simp only [pyIsSpace, Bool.or_eq_false_iff, decide_eq_false_iff_not]
  refine ⟨⟨⟨⟨⟨?_, ?_⟩, ?_⟩, ?_⟩, ?_⟩, ?_⟩ <;> rintro rfl <;> exact absurd h (by decide)

theorem dropWhile_of_forall_neg {p : Char → Bool} {l : List Char}
    (h : ∀ c ∈ l, p c = false) : l.dropWhile p = l := by
  cases l with
  | nil => rfl
  | cons a l => simp [List.dropWhile_cons, h a (by simp)]

theorem pyStrip_of_no_space {l : List Char} (h : ∀ c ∈ l, pyIsSpace c = false) :
    pyStrip l = l := by
  unfold pyStrip
  rw [dropWhile_of_forall_neg h, dropWhile_of_forall_neg (by simpa using h), List.reverse_reverse]

theorem pyStrip_of_digits {l : List Char} (h : ∀ c ∈ l, c.isDigit = true) :
    pyStrip l = l :=
  pyStrip_of_no_space (fun c hc => isDigit_not_space (h c hc))

theorem natOfDigits_pad2 {n : Nat} (h : n < 100) : natOfDigits (pad2 n) = n := by
  simp only [natOfDigits, pad2, List.foldl_cons, List.foldl_nil,
    digitChar_toNat (Nat.mod_lt _ (by omega : (0:Nat) < 10))]
  omega

theorem natOfDigits_pad4 {n : Nat} (h : n < 10000) : natOfDigits (pad4 n) = n := by
  simp only [natOfDigits, pad4, List.foldl_cons, List.foldl_nil,
    digitChar_toNat (Nat.mod_lt _ (by omega : (0:Nat) < 10))]
  omega

theorem daysInMonth_le_31 (y m : Nat) : daysInMonth y m ≤ 31 := by
  unfold daysInMonth
  split_ifs <;> omega

theorem pad2_length (n : Nat) : (pad2 n).length = 2 := rfl

theorem pad4_length (n : Nat) : (pad4 n).length = 4 := rfl

theorem matchTimestamp_digits {l : List Char} (hd : ∀ c ∈ l, c.isDigit = true)
    (hlen : l.length = 4 ∨ l.length = 6 ∨ l.length = 8 ∨ l.length = 10 ∨
      l.length = 12 ∨ l.length = 14) :
    matchTimestamp l = some (l, none, none) := by
  unfold matchTimestamp
  rw [List.takeWhile_eq_self_iff.mpr hd, List.dropWhile_eq_nil_iff.mpr hd]
  exact if_pos hlen

theorem matchTimestamp_digits_tz {l : List Char} (hd : ∀ c ∈ l, c.isDigit = true)
    {sg : Char} (hsg : sg = '+' ∨ sg = '-') {tzd : List Char} (h4 : tzd.length = 4)
    (htzd : tzd.all Char.isDigit = true)
    (hlen : l.length = 12 ∨ l.length = 14) :
    matchTimestamp (l ++ sg :: tzd) = some (l, none, some (sg, tzd)) := by
  have hsgd : sg.isDigit = false := by rcases hsg with rfl | rfl <;> decide
  unfold matchTimestamp
  rw [List.takeWhile_append_of_pos hd, List.dropWhile_append_of_pos hd,
    List.takeWhile_cons_of_neg (by simp [hsgd]), List.dropWhile_cons_of_neg (by simp [hsgd]),
    List.append_nil]
  rcases hsg with rfl | rfl
  · exact if_pos ⟨Or.inl rfl, h4, htzd, hlen⟩
  · exact if_pos ⟨Or.inr rfl, h4, htzd, hlen⟩

theorem matchTimestamp_digits_tz_none {l : List Char} (hd : ∀ c ∈ l, c.isDigit = true)
    {sg : Char} (hsg : sg = '+' ∨ sg = '-') {tzd : List Char}
    (hlen : ¬(l.length = 12 ∨ l.length = 14)) :
    matchTimestamp (l ++ sg :: tzd) = none := by
  have hsgd : sg.isDigit = false := by rcases hsg with rfl | rfl <;> decide
  unfold matchTimestamp
  rw [List.takeWhile_append_of_pos hd, List.dropWhile_append_of_pos hd,
    List.takeWhile_cons_of_neg (by simp [hsgd]), List.dropWhile_cons_of_neg (by simp [hsgd]),
    List.append_nil]
  rcases hsg with rfl | rfl
  · exact if_neg (fun h => hlen h.2.2.2)
  · exact if_neg (fun h => hlen h.2.2.2)

theorem matchTimestamp_digits_frac {l : List Char} (hd : ∀ c ∈ l, c.isDigit = true)
    {fs : List Char} (hfs : ∀ c ∈ fs, c.isDigit = true) (hfne : fs ≠ [])
    (hlen : l.length = 14) :
    matchTimestamp (l ++ '.' :: fs) = some (l, some fs, none) := by
  unfold matchTimestamp
  rw [List.takeWhile_append_of_pos hd, List.dropWhile_append_of_pos hd,
    List.takeWhile_cons_of_neg (by decide), List.dropWhile_cons_of_neg (by decide),
    List.append_nil]
  have h1 : List.takeWhile Char.isDigit fs = fs := List.takeWhile_eq_self_iff.mpr hfs
  have h2 : List.dropWhile Char.isDigit fs = [] := List.dropWhile_eq_nil_iff.mpr hfs
  simp only [h1, h2]
  rw [if_neg (by simp [List.isEmpty_iff, hfne, hlen])]

theorem matchTimestamp_digits_frac_none {l : List Char} (hd : ∀ c ∈ l, c.isDigit = true)
    {fs : List Char} (hfs : ∀ c ∈ fs, c.isDigit = true) (hlen : l.length ≠ 14) :
    matchTimestamp (l ++ '.' :: fs) = none := by
  unfold matchTimestamp
  rw [List.takeWhile_append_of_pos hd, List.dropWhile_append_of_pos hd,
    List.takeWhile_cons_of_neg (by decide), List.dropWhile_cons_of_neg (by decide),
    List.append_nil]
  have h1 : List.takeWhile Char.isDigit fs = fs := List.takeWhile_eq_self_iff.mpr hfs
  have h2 : List.dropWhile Char.isDigit fs = [] := List.dropWhile_eq_nil_iff.mpr hfs
  simp only [h1, h2]
  rw [if_pos (Or.inr hlen)]

theorem matchTimestamp_digits_frac_tz {l : List Char} (hd : ∀ c ∈ l, c.isDigit = true)
    {fs : List Char} (hfs : ∀ c ∈ fs, c.isDigit = true) (hfne : fs ≠ [])
    {sg : Char} (hsg : sg = '+' ∨ sg = '-') {tzd : List Char} (h4 : tzd.length = 4)
    (htzd : tzd.all Char.isDigit = true) (hlen : l.length = 14) :
    matchTimestamp (l ++ '.' :: (fs ++ sg :: tzd)) = some (l, some fs, some (sg, tzd)) := by
  have hsgd : sg.isDigit = false := by rcases hsg with rfl | rfl <;> decide
  unfold matchTimestamp
  rw [List.takeWhile_append_of_pos hd, List.dropWhile_append_of_pos hd,
    List.takeWhile_cons_of_neg (by decide), List.dropWhile_cons_of_neg (by decide),
    List.append_nil]
  have h1 : List.takeWhile Char.isDigit (fs ++ sg :: tzd) = fs := by
    rw [List.takeWhile_append_of_pos hfs, List.takeWhile_cons_of_neg (by simp [hsgd]),
      List.append_nil]
  have h2 : List.dropWhile Char.isDigit (fs ++ sg :: tzd) = sg :: tzd := by
    rw [List.dropWhile_append_of_pos hfs, List.dropWhile_cons_of_neg (by simp [hsgd])]
  simp only [h1, h2]
  rw [if_neg (by simp [List.isEmpty_iff, hfne, hlen])]
  rcases hsg with rfl | rfl
  · exact if_pos ⟨Or.inl rfl, h4, htzd⟩
  · exact if_pos ⟨Or.inr rfl, h4, htzd⟩

theorem all_digits_append {a b : List Char} (ha : ∀ c ∈ a, c.isDigit = true)
    (hb : ∀ c ∈ b, c.isDigit = true) : ∀ c ∈ a ++ b, c.isDigit = true := by
  intro c hc
  rcases List.mem_append.mp hc with h | h
  exacts [ha c h, hb c h]

theorem tsY_digits (y : Nat) : ∀ c ∈ tsY y, c.isDigit = true :=
  pad4_all_digits y

theorem tsYM_digits (y mo : Nat) : ∀ c ∈ tsYM y mo, c.isDigit = true :=
  all_digits_append (pad4_all_digits y) (pad2_all_digits mo)

theorem tsYMD_digits (y mo da : Nat) : ∀ c ∈ tsYMD y mo da, c.isDigit = true :=
  all_digits_append (pad4_all_digits y)
    (all_digits_append (pad2_all_digits mo) (pad2_all_digits da))

theorem tsYMDH_digits (y mo da ho : Nat) : ∀ c ∈ tsYMDH y mo da ho, c.isDigit = true :=
  all_digits_append (pad4_all_digits y)
    (all_digits_append (pad2_all_digits mo)
      (all_digits_append (pad2_all_digits da) (pad2_all_digits ho)))

theorem tsYMDHM_digits (y mo da ho mi : Nat) : ∀ c ∈ tsYMDHM y mo da ho mi, c.isDigit = true :=
  all_digits_append (pad4_all_digits y)
    (all_digits_append (pad2_all_digits mo)
      (all_digits_append (pad2_all_digits da)
        (all_digits_append (pad2_all_digits ho) (pad2_all_digits mi))))

theorem tsYMDHMS_digits (y mo da ho mi se : Nat) :
    ∀ c ∈ tsYMDHMS y mo da ho mi se, c.isDigit = true :=
  all_digits_append (pad4_all_digits y)
    (all_digits_append (pad2_all_digits mo)
      (all_digits_append (pad2_all_digits da)
        (all_digits_append (pad2_all_digits ho)
          (all_digits_append (pad2_all_digits mi) (pad2_all_digits se)))))

theorem convertMatched_year {y : Nat} (hy : y < 10000) (v : String) (u : Bool) :
    convertMatched v (tsY y) none none u = .ok (String.mk (pad4 y)) := by
  unfold convertMatched tsY
  simp only [show (pad4 y).take 4 = pad4 y from rfl, natOfDigits_pad4 hy, pad4_length,
    if_true]

theorem convertMatched_month {y mo : Nat} (hy : y < 10000) (hmo : mo < 100)
    (v : String) (u : Bool) :
    convertMatched v (tsYM y mo) none none u = .ok (String.mk (fmtYM y mo)) := by
  unfold convertMatched tsYM
  simp only [show (pad4 y ++ pad2 mo).take 4 = pad4 y from rfl,
    show ((pad4 y ++ pad2 mo).drop 4).take 2 = pad2 mo from rfl,
    natOfDigits_pad4 hy, natOfDigits_pad2 hmo,
    show (pad4 y ++ pad2 mo).length = 6 from rfl]
  norm_num

theorem convertMatched_date {y mo da : Nat} (hy : y < 10000) (hmo : mo < 100) (hda : da < 100)
    (hval : validDate y mo da = true) (v : String) (u : Bool) :
    convertMatched v (tsYMD y mo da) none none u = .ok (String.mk (fmtDate y mo da)) := by
  unfold convertMatched tsYMD
  simp only [show (pad4 y ++ (pad2 mo ++ pad2 da)).take 4 = pad4 y from rfl,
    show ((pad4 y ++ (pad2 mo ++ pad2 da)).drop 4).take 2 = pad2 mo from rfl,
    show ((pad4 y ++ (pad2 mo ++ pad2 da)).drop 6).take 2 = pad2 da from rfl,
    natOfDigits_pad4 hy, natOfDigits_pad2 hmo, natOfDigits_pad2 hda,
    show (pad4 y ++ (pad2 mo ++ pad2 da)).length = 8 from rfl]
  norm_num [checkDate, hval]
  rfl

theorem convertMatched_hours {y mo da ho : Nat} (hy : y < 10000) (hmo : mo < 100)
    (hda : da < 100) (hho : ho < 100) (hval : validDate y mo da = true)
    (htime : validTime ho 0 0 = true) (v : String) (u : Bool) :
    convertMatched v (tsYMDH y mo da ho) none none u =
      .ok (String.mk (fmtDT y mo da ho 0 0 ++ (if u then ['Z'] else []))) := by
  unfold convertMatched tsYMDH
  simp only [show (pad4 y ++ (pad2 mo ++ (pad2 da ++ pad2 ho))).take 4 = pad4 y from rfl,
    show ((pad4 y ++ (pad2 mo ++ (pad2 da ++ pad2 ho))).drop 4).take 2 = pad2 mo from rfl,
    show ((pad4 y ++ (pad2 mo ++ (pad2 da ++ pad2 ho))).drop 6).take 2 = pad2 da from rfl,
    show ((pad4 y ++ (pad2 mo ++ (pad2 da ++ pad2 ho))).drop 8).take 2 = pad2 ho from rfl,
    natOfDigits_pad4 hy, natOfDigits_pad2 hmo, natOfDigits_pad2 hda, natOfDigits_pad2 hho,
    show (pad4 y ++ (pad2 mo ++ (pad2 da ++ pad2 ho))).length = 10 from rfl]
  norm_num [checkDate, checkTime, hval, htime]
  rfl

theorem convertMatched_minutes {y mo da ho mi : Nat} (hy : y < 10000) (hmo : mo < 100)
    (hda : da < 100) (hho : ho < 100) (hmi : mi < 100) (hval : validDate y mo da = true)
    (htime : validTime ho mi 0 = true) (v : String) (u : Bool) :
    convertMatched v (tsYMDHM y mo da ho mi) none none u =
      .ok (String.mk (fmtDT y mo da ho mi 0 ++ (if u then ['Z'] else []))) := by
  unfold convertMatched
  simp only [
    show (tsYMDHM y mo da ho mi).take 4 = pad4 y from rfl,
    show ((tsYMDHM y mo da ho mi).drop 4).take 2 = pad2 mo from rfl,
    show ((tsYMDHM y mo da ho mi).drop 6).take 2 = pad2 da from rfl,
    show ((tsYMDHM y mo da ho mi).drop 8).take 2 = pad2 ho from rfl,
    show ((tsYMDHM y mo da ho mi).drop 10).take 2 = pad2 mi from rfl,
    natOfDigits_pad4 hy, natOfDigits_pad2 hmo, natOfDigits_pad2 hda, natOfDigits_pad2 hho,
    natOfDigits_pad2 hmi,
    show (tsYMDHM y mo da ho mi).length = 12 from rfl]
  norm_num [checkDate, checkTime, hval, htime]
  rfl

theorem convertMatched_full {y mo da ho mi se : Nat} (hy : y < 10000) (hmo : mo < 100)
    (hda : da < 100) (hho : ho < 100) (hmi : mi < 100) (hse : se < 100)
    (hval : validDate y mo da = true) (htime : validTime ho mi se = true)
    (v : String) (u : Bool) :
    convertMatched v (tsYMDHMS y mo da ho mi se) none none u =
      .ok (String.mk (fmtDT y mo da ho mi se ++ (if u then ['Z'] else []))) := by
  unfold convertMatched
  simp only [
    show (tsYMDHMS y mo da ho mi se).take 4 = pad4 y from rfl,
    show ((tsYMDHMS y mo da ho mi se).drop 4).take 2 = pad2 mo from rfl,
    show ((tsYMDHMS y mo da ho mi se).drop 6).take 2 = pad2 da from rfl,
    show ((tsYMDHMS y mo da ho mi se).drop 8).take 2 = pad2 ho from rfl,
    show ((tsYMDHMS y mo da ho mi se).drop 10).take 2 = pad2 mi from rfl,
    show ((tsYMDHMS y mo da ho mi se).drop 12).take 2 = pad2 se from rfl,
    natOfDigits_pad4 hy, natOfDigits_pad2 hmo, natOfDigits_pad2 hda, natOfDigits_pad2 hho,
    natOfDigits_pad2 hmi, natOfDigits_pad2 hse,
    show (tsYMDHMS y mo da ho mi se).length = 14 from rfl]
  norm_num [checkDate, checkTime, hval, htime]
  rfl

theorem parse_core {l : List Char} (hstrip : pyStrip l = l) (hne : l ≠ []) (u : Bool) :
    parse_hl7_timestamp (String.mk l) u =
      (match matchTimestamp l with
       | some (ds, f, tz) => (convertMatched (String.mk l) ds f tz u).map some
       | none => .error (.invalidTimestamp (String.mk l)
           "does not match any known HL7 timestamp format")) := by
  unfold parse_hl7_timestamp
  show (if (pyStrip l).isEmpty then _ else _) = _
  rw [hstrip, if_neg (by simp [List.isEmpty_iff, hne])]

theorem parse_tsY {y : Nat} (hy : y < 10000) (u : Bool) :
    parse_hl7_timestamp (String.mk (tsY y)) u = .ok (some (String.mk (pad4 y))) := by
  rw [parse_core (pyStrip_of_digits (tsY_digits y)) (by simp [tsY, pad4]) u,
    matchTimestamp_digits (tsY_digits y) (Or.inl rfl)]
  simp only [convertMatched_year hy]
  rfl

theorem parse_tsYM {y mo : Nat} (hy : y < 10000) (hmo : mo < 100) (u : Bool) :
    parse_hl7_timestamp (String.mk (tsYM y mo)) u = .ok (some (String.mk (fmtYM y mo))) := by
  rw [parse_core (pyStrip_of_digits (tsYM_digits y mo)) (by simp [tsYM, pad4]) u,
    matchTimestamp_digits (tsYM_digits y mo) (Or.inr (Or.inl rfl))]
  simp only [convertMatched_month hy hmo]
  rfl

theorem parse_tsYMD {y mo da : Nat} (hy : y < 10000) (hmo : mo < 100) (hda : da < 100)
    (hval : validDate y mo da = true) (u : Bool) :
    parse_hl7_timestamp (String.mk (tsYMD y mo da)) u =
      .ok (some (String.mk (fmtDate y mo da))) := by
  rw [parse_core (pyStrip_of_digits (tsYMD_digits y mo da)) (by simp [tsYMD, pad4]) u,
    matchTimestamp_digits (tsYMD_digits y mo da) (Or.inr (Or.inr (Or.inl rfl)))]
  simp only [convertMatched_date hy hmo hda hval]
  rfl

theorem parse_tsYMDH {y mo da ho : Nat} (hy : y < 10000) (hmo : mo < 100) (hda : da < 100)
    (hho : ho < 100) (hval : validDate y mo da = true) (htime : validTime ho 0 0 = true)
    (u : Bool) :
    parse_hl7_timestamp (String.mk (tsYMDH y mo da ho)) u =
      .ok (some (String.mk (fmtDT y mo da ho 0 0 ++ (if u then ['Z'] else [])))) := by
  rw [parse_core (pyStrip_of_digits (tsYMDH_digits y mo da ho)) (by simp [tsYMDH, pad4]) u,
    matchTimestamp_digits (tsYMDH_digits y mo da ho) (Or.inr (Or.inr (Or.inr (Or.inl rfl))))]
  simp only [convertMatched_hours hy hmo hda hho hval htime]
  rfl

theorem parse_tsYMDHM {y mo da ho mi : Nat} (hy : y < 10000) (hmo : mo < 100) (hda : da < 100)
    (hho : ho < 100) (hmi : mi < 100) (hval : validDate y mo da = true)
    (htime : validTime ho mi 0 = true) (u : Bool) :
    parse_hl7_timestamp (String.mk (tsYMDHM y mo da ho mi)) u =
      .ok (some (String.mk (fmtDT y mo da ho mi 0 ++ (if u then ['Z'] else [])))) := by
  rw [parse_core (pyStrip_of_digits (tsYMDHM_digits y mo da ho mi))
      (by simp [tsYMDHM, pad4]) u,
    matchTimestamp_digits (tsYMDHM_digits y mo da ho mi)
      (Or.inr (Or.inr (Or.inr (Or.inr (Or.inl rfl)))))]
  simp only [convertMatched_minutes hy hmo hda hho hmi hval htime]
  rfl

theorem parse_tsYMDHMS {y mo da ho mi se : Nat} (hy : y < 10000) (hmo : mo < 100)
    (hda : da < 100) (hho : ho < 100) (hmi : mi < 100) (hse : se < 100)
    (hval : validDate y mo da = true) (htime : validTime ho mi se = true) (u : Bool) :
    parse_hl7_timestamp (String.mk (tsYMDHMS y mo da ho mi se)) u =
      .ok (some (String.mk (fmtDT y mo da ho mi se ++ (if u then ['Z'] else [])))) := by
  rw [parse_core (pyStrip_of_digits (tsYMDHMS_digits y mo da ho mi se))
      (by simp [tsYMDHMS, pad4]) u,
    matchTimestamp_digits (tsYMDHMS_digits y mo da ho mi se)
      (Or.inr (Or.inr (Or.inr (Or.inr (Or.inr rfl)))))]
  simp only [convertMatched_full hy hmo hda hho hmi hse hval htime]
  rfl

theorem pyStrip_of_ts_chars {l : List Char}
    (h : ∀ c ∈ l, c.isDigit = true ∨ c = '+' ∨ c = '-' ∨ c = '.') : pyStrip l = l := by
  refine pyStrip_of_no_space (fun c hc => ?_)
  rcases h c hc with hdig | rfl | rfl | rfl
  · exact isDigit_not_space hdig
  · decide
  · decide
  · decide

theorem ts_chars_tz {l : List Char} (hd : ∀ c ∈ l, c.isDigit = true)
    {sg : Char} (hsg : sg = '+' ∨ sg = '-') {tzd : List Char}
    (htzd : tzd.all Char.isDigit = true) :
    ∀ c ∈ l ++ sg :: tzd, c.isDigit = true ∨ c = '+' ∨ c = '-' ∨ c = '.' := by
  intro c hc
  rcases List.mem_append.mp hc with h | h
  · exact Or.inl (hd c h)
  · rcases List.mem_cons.mp h with rfl | h
    · rcases hsg with rfl | rfl
      · exact Or.inr (Or.inl rfl)
      · exact Or.inr (Or.inr (Or.inl rfl))
    · exact Or.inl (List.all_eq_true.mp htzd c h)

theorem ts_chars_frac {l : List Char} (hd : ∀ c ∈ l, c.isDigit = true)
    {fs : List Char} (hfs : ∀ c ∈ fs, c.isDigit = true) :
    ∀ c ∈ l ++ '.' :: fs, c.isDigit = true ∨ c = '+' ∨ c = '-' ∨ c = '.' := by
  intro c hc
  rcases List.mem_append.mp hc with h | h
  · exact Or.inl (hd c h)
  · rcases List.mem_cons.mp h with rfl | h
    · exact Or.inr (Or.inr (Or.inr rfl))
    · exact Or.inl (hfs c h)

theorem ts_chars_frac_tz {l : List Char} (hd : ∀ c ∈ l, c.isDigit = true)
    {fs : List Char} (hfs : ∀ c ∈ fs, c.isDigit = true)
    {sg : Char} (hsg : sg = '+' ∨ sg = '-') {tzd : List Char}
    (htzd : tzd.all Char.isDigit = true) :
    ∀ c ∈ l ++ '.' :: (fs ++ sg :: tzd), c.isDigit = true ∨ c = '+' ∨ c = '-' ∨ c = '.' := by
  intro c hc
  rcases List.mem_append.mp hc with h | h
  · exact Or.inl (hd c h)
  · rcases List.mem_cons.mp h with rfl | h
    · exact Or.inr (Or.inr (Or.inr rfl))
    · exact ts_chars_tz hfs hsg htzd c h

theorem convertMatched_minutes_tz {y mo da ho mi : Nat} (hy : y < 10000) (hmo : mo < 100)
    (hda : da < 100) (hho : ho < 100) (hmi : mi < 100) (hval : validDate y mo da = true)
    (htime : validTime ho mi 0 = true) (sg : Char) (tzd : List Char) (v : String) (u : Bool) :
    convertMatched v (tsYMDHM y mo da ho mi) none (some (sg, tzd)) u =
      .ok (String.mk (fmtDT y mo da ho mi 0 ++ convertTzOffset sg tzd)) := by
  unfold convertMatched
  simp only [
    show (tsYMDHM y mo da ho mi).take 4 = pad4 y from rfl,
    show ((tsYMDHM y mo da ho mi).drop 4).take 2 = pad2 mo from rfl,
    show ((tsYMDHM y mo da ho mi).drop 6).take 2 = pad2 da from rfl,
    show ((tsYMDHM y mo da ho mi).drop 8).take 2 = pad2 ho from rfl,
    show ((tsYMDHM y mo da ho mi).drop 10).take 2 = pad2 mi from rfl,
    natOfDigits_pad4 hy, natOfDigits_pad2 hmo, natOfDigits_pad2 hda, natOfDigits_pad2 hho,
    natOfDigits_pad2 hmi,
    show (tsYMDHM y mo da ho mi).length = 12 from rfl]
  norm_num [checkDate, checkTime, hval, htime]
  rfl

theorem convertMatched_full_tz {y mo da ho mi se : Nat} (hy : y < 10000) (hmo : mo < 100)
    (hda : da < 100) (hho : ho < 100) (hmi : mi < 100) (hse : se < 100)
    (hval : validDate y mo da = true) (htime : validTime ho mi se = true)
    (sg : Char) (tzd : List Char) (v : String) (u : Bool) :
    convertMatched v (tsYMDHMS y mo da ho mi se) none (some (sg, tzd)) u =
      .ok (String.mk (fmtDT y mo da ho mi se ++ convertTzOffset sg tzd)) := by
  unfold convertMatched
  simp only [
    show (tsYMDHMS y mo da ho mi se).take 4 = pad4 y from rfl,
    show ((tsYMDHMS y mo da ho mi se).drop 4).take 2 = pad2 mo from rfl,
    show ((tsYMDHMS y mo da ho mi se).drop 6).take 2 = pad2 da from rfl,
    show ((tsYMDHMS y mo da ho mi se).drop 8).take 2 = pad2 ho from rfl,
    show ((tsYMDHMS y mo da ho mi se).drop 10).take 2 = pad2 mi from rfl,
    show ((tsYMDHMS y mo da ho mi se).drop 12).take 2 = pad2 se from rfl,
    natOfDigits_pad4 hy, natOfDigits_pad2 hmo, natOfDigits_pad2 hda, natOfDigits_pad2 hho,
    natOfDigits_pad2 hmi, natOfDigits_pad2 hse,
    show (tsYMDHMS y mo da ho mi se).length = 14 from rfl]
  norm_num [checkDate, checkTime, hval, htime]
  rfl

theorem convertMatched_full_frac {y mo da ho mi se : Nat} (hy : y < 10000) (hmo : mo < 100)
    (hda : da < 100) (hho : ho < 100) (hmi : mi < 100) (hse : se < 100)
    (hval : validDate y mo da = true) (htime : validTime ho mi se = true)
    (f : List Char) (v : String) (u : Bool) :
    convertMatched v (tsYMDHMS y mo da ho mi se) (some f) none u =
      .ok (String.mk (fmtDT y mo da ho mi se ++ '.' :: normFraction f ++
        (if u then ['Z'] else []))) := by
  unfold convertMatched
  simp only [
    show (tsYMDHMS y mo da ho mi se).take 4 = pad4 y from rfl,
    show ((tsYMDHMS y mo da ho mi se).drop 4).take 2 = pad2 mo from rfl,
    show ((tsYMDHMS y mo da ho mi se).drop 6).take 2 = pad2 da from rfl,
    show ((tsYMDHMS y mo da ho mi se).drop 8).take 2 = pad2 ho from rfl,
    show ((tsYMDHMS y mo da ho mi se).drop 10).take 2 = pad2 mi from rfl,
    show ((tsYMDHMS y mo da ho mi se).drop 12).take 2 = pad2 se from rfl,
    natOfDigits_pad4 hy, natOfDigits_pad2 hmo, natOfDigits_pad2 hda, natOfDigits_pad2 hho,
    natOfDigits_pad2 hmi, natOfDigits_pad2 hse,
    show (tsYMDHMS y mo da ho mi se).length = 14 from rfl]
  norm_num [checkDate, checkTime, hval, htime]
  rfl

theorem convertMatched_full_frac_tz {y mo da ho mi se : Nat} (hy : y < 10000) (hmo : mo < 100)
    (hda : da < 100) (hho : ho < 100) (hmi : mi < 100) (hse : se < 100)
    (hval : validDate y mo da = true) (htime : validTime ho mi se = true)
    (f : List Char) (sg : Char) (tzd : List Char) (v : String) (u : Bool) :
    convertMatched v (tsYMDHMS y mo da ho mi se) (some f) (some (sg, tzd)) u =
      .ok (String.mk (fmtDT y mo da ho mi se ++ '.' :: normFraction f ++
        convertTzOffset sg tzd)) := by
  unfold convertMatched
  simp only [
    show (tsYMDHMS y mo da ho mi se).take 4 = pad4 y from rfl,
    show ((tsYMDHMS y mo da ho mi se).drop 4).take 2 = pad2 mo from rfl,
    show ((tsYMDHMS y mo da ho mi se).drop 6).take 2 = pad2 da from rfl,
    show ((tsYMDHMS y mo da ho mi se).drop 8).take 2 = pad2 ho from rfl,
    show ((tsYMDHMS y mo da ho mi se).drop 10).take 2 = pad2 mi from rfl,
    show ((tsYMDHMS y mo da ho mi se).drop 12).take 2 = pad2 se from rfl,
    natOfDigits_pad4 hy, natOfDigits_pad2 hmo, natOfDigits_pad2 hda, natOfDigits_pad2 hho,
    natOfDigits_pad2 hmi, natOfDigits_pad2 hse,
    show (tsYMDHMS y mo da ho mi se).length = 14 from rfl]
  norm_num [checkDate, checkTime, hval, htime]
  rfl

theorem parse_tsYMDHM_tz {y mo da ho mi : Nat} (hy : y < 10000) (hmo : mo < 100)
    (hda : da < 100) (hho : ho < 100) (hmi : mi < 100) (hval : validDate y mo da = true)
    (htime : validTime ho mi 0 = true) {sg : Char} (hsg : sg = '+' ∨ sg = '-')
    {tzd : List Char} (h4 : tzd.length = 4) (htzd : tzd.all Char.isDigit = true) (u : Bool) :
    parse_hl7_timestamp (String.mk (tsYMDHM y mo da ho mi ++ sg :: tzd)) u =
      .ok (some (String.mk (fmtDT y mo da ho mi 0 ++ convertTzOffset sg tzd))) := by
  rw [parse_core (pyStrip_of_ts_chars (ts_chars_tz (tsYMDHM_digits y mo da ho mi) hsg htzd))
      (by simp [tsYMDHM, pad4]) u,
    matchTimestamp_digits_tz (tsYMDHM_digits y mo da ho mi) hsg h4 htzd (Or.inl rfl)]
  simp only [convertMatched_minutes_tz hy hmo hda hho hmi hval htime]
  rfl

theorem parse_tsYMDHMS_tz {y mo da ho mi se : Nat} (hy : y < 10000) (hmo : mo < 100)
    (hda : da < 100) (hho : ho < 100) (hmi : mi < 100) (hse : se < 100)
    (hval : validDate y mo da = true) (htime : validTime ho mi se = true)
    {sg : Char} (hsg : sg = '+' ∨ sg = '-') {tzd : List Char} (h4 : tzd.length = 4)
    (htzd : tzd.all Char.isDigit = true) (u : Bool) :
    parse_hl7_timestamp (String.mk (tsYMDHMS y mo da ho mi se ++ sg :: tzd)) u =
      .ok (some (String.mk (fmtDT y mo da ho mi se ++ convertTzOffset sg tzd))) := by
  rw [parse_core
      (pyStrip_of_ts_chars (ts_chars_tz (tsYMDHMS_digits y mo da ho mi se) hsg htzd))
      (by simp [tsYMDHMS, pad4]) u,
    matchTimestamp_digits_tz (tsYMDHMS_digits y mo da ho mi se) hsg h4 htzd (Or.inr rfl)]
  simp only [convertMatched_full_tz hy hmo hda hho hmi hse hval htime]
  rfl

theorem parse_tsYMDHMS_frac {y mo da ho mi se : Nat} (hy : y < 10000) (hmo : mo < 100)
    (hda : da < 100) (hho : ho < 100) (hmi : mi < 100) (hse : se < 100)
    (hval : validDate y mo da = true) (htime : validTime ho mi se = true)
    {fs : List Char} (hfs : ∀ c ∈ fs, c.isDigit = true) (hfne : fs ≠ []) (u : Bool) :
    parse_hl7_timestamp (String.mk (tsYMDHMS y mo da ho mi se ++ '.' :: fs)) u =
      .ok (some (String.mk (fmtDT y mo da ho mi se ++ '.' :: normFraction fs ++
        (if u then ['Z'] else [])))) := by
  rw [parse_core
      (pyStrip_of_ts_chars (ts_chars_frac (tsYMDHMS_digits y mo da ho mi se) hfs))
      (by simp [tsYMDHMS, pad4]) u,
    matchTimestamp_digits_frac (tsYMDHMS_digits y mo da ho mi se) hfs hfne rfl]
  simp only [convertMatched_full_frac hy hmo hda hho hmi hse hval htime]
  rfl

theorem parse_tsYMDHMS_frac_tz {y mo da ho mi se : Nat} (hy : y < 10000) (hmo : mo < 100)
    (hda : da < 100) (hho : ho < 100) (hmi : mi < 100) (hse : se < 100)
    (hval : validDate y mo da = true) (htime : validTime ho mi se = true)
    {fs : List Char} (hfs : ∀ c ∈ fs, c.isDigit = true) (hfne : fs ≠ [])
    {sg : Char} (hsg : sg = '+' ∨ sg = '-') {tzd : List Char} (h4 : tzd.length = 4)
    (htzd : tzd.all Char.isDigit = true) (u : Bool) :
    parse_hl7_timestamp (String.mk (tsYMDHMS y mo da ho mi se ++ '.' :: (fs ++ sg :: tzd))) u =
      .ok (some (String.mk (fmtDT y mo da ho mi se ++ '.' :: normFraction fs ++
        convertTzOffset sg tzd))) := by
  rw [parse_core
      (pyStrip_of_ts_chars
        (ts_chars_frac_tz (tsYMDHMS_digits y mo da ho mi se) hfs hsg htzd))
      (by simp [tsYMDHMS, pad4]) u,
    matchTimestamp_digits_frac_tz (tsYMDHMS_digits y mo da ho mi se) hfs hfne hsg h4 htzd rfl]
  simp only [convertMatched_full_frac_tz hy hmo hda hho hmi hse hval htime]
  rfl

theorem parse_tz_reject {l : List Char} (hd : ∀ c ∈ l, c.isDigit = true)
    {sg : Char} (hsg : sg = '+' ∨ sg = '-') {tzd : List Char}
    (htzd : tzd.all Char.isDigit = true)
    (hlen : ¬(l.length = 12 ∨ l.length = 14)) (u : Bool) :
    isOkB (parse_hl7_timestamp (String.mk (l ++ sg :: tzd)) u) = false := by
  rw [parse_core (pyStrip_of_ts_chars (ts_chars_tz hd hsg htzd)) (by simp) u,
    matchTimestamp_digits_tz_none hd hsg hlen]
  rfl

theorem parse_frac_reject {l : List Char} (hd : ∀ c ∈ l, c.isDigit = true)
    {fs : List Char} (hfs : ∀ c ∈ fs, c.isDigit = true) (hlen : l.length ≠ 14) (u : Bool) :
    isOkB (parse_hl7_timestamp (String.mk (l ++ '.' :: fs)) u) = false := by
  rw [parse_core (pyStrip_of_ts_chars (ts_chars_frac hd hfs)) (by simp) u,
    matchTimestamp_digits_frac_none hd hfs hlen]
  rfl

/-! ## Claim theorems -/

/-- C1: For every valid timestamp input at each of the six recognized
precision levels, the normalizer returns exactly the stated output
granularity — `YYYY`, `YYYY-MM`, `YYYY-MM-DD`, date plus `THH:00:00`,
date plus `THH:MM:00`, and the full `YYYY-MM-DDTHH:MM:SS` — with no
extraneous components.  The year/month/date granularities hold for
either value of the UTC-assumption flag; the time granularities are
stated without the UTC assumption, under which the code appends no
timezone designator at all. -/
theorem spec_C1 (y mo da ho mi se : Nat) (u : Bool)
    (hy1 : 1 ≤ y) (hy : y ≤ 9999) (hmo1 : 1 ≤ mo) (hmo : mo ≤ 12)
    (hda1 : 1 ≤ da) (hda : da ≤ daysInMonth y mo)
    (hho : ho ≤ 23) (hmi : mi ≤ 59) (hse : se ≤ 59) :
    parse_hl7_timestamp (String.mk (tsY y)) u = .ok (some (String.mk (pad4 y))) ∧
    parse_hl7_timestamp (String.mk (tsYM y mo)) u = .ok (some (String.mk (fmtYM y mo))) ∧
    parse_hl7_timestamp (String.mk (tsYMD y mo da)) u =
      .ok (some (String.mk (fmtDate y mo da))) ∧
    parse_hl7_timestamp (String.mk (tsYMDH y mo da ho)) false =
      .ok (some (String.mk (fmtDT y mo da ho 0 0))) ∧
    parse_hl7_timestamp (String.mk (tsYMDHM y mo da ho mi)) false =
      .ok (some (String.mk (fmtDT y mo da ho mi 0))) ∧
    parse_hl7_timestamp (String.mk (tsYMDHMS y mo da ho mi se)) false =
      .ok (some (String.mk (fmtDT y mo da ho mi se))) := by
  have h31 := daysInMonth_le_31 y mo
  have hval : validDate y mo da = true := by simp only [validDate]; simp; omega
  have ht1 : validTime ho 0 0 = true := by simp only [validTime]; simp; omega
  have ht2 : validTime ho mi 0 = true := by simp only [validTime]; simp; omega
  have ht3 : validTime ho mi se = true := by simp only [validTime]; simp; omega
  refine ⟨parse_tsY (by omega) u, parse_tsYM (by omega) (by omega) u,
    parse_tsYMD (by omega) (by omega) (by omega) hval u, ?_, ?_, ?_⟩
  · simpa using parse_tsYMDH (by omega) (by omega) (by omega) (by omega) hval ht1 false
  · simpa using parse_tsYMDHM (by omega) (by omega) (by omega) (by omega) (by omega) hval ht2 false
  · simpa using
      parse_tsYMDHMS (by omega) (by omega) (by omega) (by omega) (by omega) (by omega) hval ht3 false

/-- C2 counterexample: the claim says a fractional part and a timezone
offset are accepted at every one of the six precision lengths, but the
valid year-precision input `2025` followed by the offset `+0500` is
rejected with `InvalidTimestampError`. -/
theorem spec_C2_counterexample : acceptedTs "2025+0500" = false := by decide

/-- C2 (amended): the optional fraction and timezone suffixes are
accepted only at specific precisions — bare digit strings at all six
lengths, a timezone offset only at the 12- and 14-digit lengths, and a
fraction (optionally followed by an offset) only at the 14-digit
length; at the remaining lengths a fraction or offset makes the input
rejected. -/
theorem spec_C2_amended (y mo da ho mi se : Nat)
    (hy1 : 1 ≤ y) (hy : y ≤ 9999) (hmo1 : 1 ≤ mo) (hmo : mo ≤ 12)
    (hda1 : 1 ≤ da) (hda : da ≤ daysInMonth y mo)
    (hho : ho ≤ 23) (hmi : mi ≤ 59) (hse : se ≤ 59)
    {fs : List Char} (hfs : ∀ c ∈ fs, c.isDigit = true) (hfne : fs ≠ [])
    {sg : Char} (hsg : sg = '+' ∨ sg = '-') {tzd : List Char} (h4 : tzd.length = 4)
    (htzd : tzd.all Char.isDigit = true) :
    acceptedTs (String.mk (tsY y)) = true ∧
    acceptedTs (String.mk (tsYM y mo)) = true ∧
    acceptedTs (String.mk (tsYMD y mo da)) = true ∧
    acceptedTs (String.mk (tsYMDH y mo da ho)) = true ∧
    acceptedTs (String.mk (tsYMDHM y mo da ho mi)) = true ∧
    acceptedTs (String.mk (tsYMDHMS y mo da ho mi se)) = true ∧
    acceptedTs (String.mk (tsYMDHM y mo da ho mi ++ sg :: tzd)) = true ∧
    acceptedTs (String.mk (tsYMDHMS y mo da ho mi se ++ sg :: tzd)) = true ∧
    acceptedTs (String.mk (tsYMDHMS y mo da ho mi se ++ '.' :: fs)) = true ∧
    acceptedTs (String.mk (tsYMDHMS y mo da ho mi se ++ '.' :: (fs ++ sg :: tzd))) = true ∧
    acceptedTs (String.mk (tsY y ++ sg :: tzd)) = false ∧
    acceptedTs (String.mk (tsYM y mo ++ sg :: tzd)) = false ∧
    acceptedTs (String.mk (tsYMD y mo da ++ sg :: tzd)) = false ∧
    acceptedTs (String.mk (tsYMDH y mo da ho ++ sg :: tzd)) = false ∧
    acceptedTs (String.mk (tsY y ++ '.' :: fs)) = false ∧
    acceptedTs (String.mk (tsYM y mo ++ '.' :: fs)) = false ∧
    acceptedTs (String.mk (tsYMD y mo da ++ '.' :: fs)) = false ∧
    acceptedTs (String.mk (tsYMDH y mo da ho ++ '.' :: fs)) = false ∧
    acceptedTs (String.mk (tsYMDHM y mo da ho mi ++ '.' :: fs)) = false := by
  have h31 := daysInMonth_le_31 y mo
  have hval : validDate y mo da = true := by simp only [validDate]; simp; omega
  have ht1 : validTime ho 0 0 = true := by simp only [validTime]; simp; omega
  have ht2 : validTime ho mi 0 = true := by simp only [validTime]; simp; omega
  have ht3 : validTime ho mi se = true := by simp only [validTime]; simp; omega
  refine ⟨?_, ?_, ?_, ?_, ?_, ?_, ?_, ?_, ?_, ?_, ?_, ?_, ?_, ?_, ?_, ?_, ?_, ?_, ?_⟩
  · unfold acceptedTs
    rw [parse_tsY (by omega) true]
    rfl
  · unfold acceptedTs
    rw [parse_tsYM (by omega) (by omega) true]
    rfl
  · unfold acceptedTs
    rw [parse_tsYMD (by omega) (by omega) (by omega) hval true]
    rfl
  · unfold acceptedTs
    rw [parse_tsYMDH (by omega) (by omega) (by omega) (by omega) hval ht1 true]
    rfl
  · unfold acceptedTs
    rw [parse_tsYMDHM (by omega) (by omega) (by omega) (by omega) (by omega) hval ht2 true]
    rfl
  · unfold acceptedTs
    rw [parse_tsYMDHMS (by omega) (by omega) (by omega) (by omega) (by omega) (by omega)
      hval ht3 true]
    rfl
  · unfold acceptedTs
    rw [parse_tsYMDHM_tz (by omega) (by omega) (by omega) (by omega) (by omega) hval ht2
      hsg h4 htzd true]
    rfl
  · unfold acceptedTs
    rw [parse_tsYMDHMS_tz (by omega) (by omega) (by omega) (by omega) (by omega) (by omega)
      hval ht3 hsg h4 htzd true]
    rfl
  · unfold acceptedTs
    rw [parse_tsYMDHMS_frac (by omega) (by omega) (by omega) (by omega) (by omega) (by omega)
      hval ht3 hfs hfne true]
    rfl
  · unfold acceptedTs
    rw [parse_tsYMDHMS_frac_tz (by omega) (by omega) (by omega) (by omega) (by omega)
      (by omega) hval ht3 hfs hfne hsg h4 htzd true]
    rfl
  · exact parse_tz_reject (tsY_digits y) hsg htzd
      (by rw [show (tsY y).length = 4 from rfl]; decide) true
  · exact parse_tz_reject (tsYM_digits y mo) hsg htzd
      (by rw [show (tsYM y mo).length = 6 from rfl]; decide) true
  · exact parse_tz_reject (tsYMD_digits y mo da) hsg htzd
      (by rw [show (tsYMD y mo da).length = 8 from rfl]; decide) true
  · exact parse_tz_reject (tsYMDH_digits y mo da ho) hsg htzd
      (by rw [show (tsYMDH y mo da ho).length = 10 from rfl]; decide) true
  · exact parse_frac_reject (tsY_digits y) hfs
      (by rw [show (tsY y).length = 4 from rfl]; decide) true
  · exact parse_frac_reject (tsYM_digits y mo) hfs
      (by rw [show (tsYM y mo).length = 6 from rfl]; decide) true
  · exact parse_frac_reject (tsYMD_digits y mo da) hfs
      (by rw [show (tsYMD y mo da).length = 8 from rfl]; decide) true
  · exact parse_frac_reject (tsYMDH_digits y mo da ho) hfs
      (by rw [show (tsYMDH y mo da ho).length = 10 from rfl]; decide) true
  · exact parse_frac_reject (tsYMDHM_digits y mo da ho mi) hfs
      (by rw [show (tsYMDHM y mo da ho mi).length = 12 from rfl]; decide) true

/-- Witness for the amended C2 at concrete components: the bare
year-precision input is accepted, and the same year followed by a
timezone offset is rejected. -/
theorem spec_C2_amended_witness :
    acceptedTs (String.mk (tsY 2025)) = true ∧
    acceptedTs (String.mk (tsY 2025 ++ '+' :: ['0', '5', '3', '0'])) = false := by
  have h := @spec_C2_amended 2025 5 2 14 30 55 (by decide) (by decide) (by decide) (by decide)
    (by decide) (by decide) (by decide) (by decide) (by decide)
    ['1'] (by decide) (by decide) '+' (Or.inl rfl)
    ['0', '5', '3', '0'] (by decide) (by decide)
  exact ⟨h.1, h.2.2.2.2.2.2.2.2.2.2.1⟩

/-- Witness for C1 at the concrete components 2025-05-02 14:30:55. -/
theorem spec_C1_witness :
    parse_hl7_timestamp (String.mk (tsY 2025)) false = .ok (some (String.mk (pad4 2025))) ∧
    parse_hl7_timestamp (String.mk (tsYM 2025 5)) false =
      .ok (some (String.mk (fmtYM 2025 5))) ∧
    parse_hl7_timestamp (String.mk (tsYMD 2025 5 2)) false =
      .ok (some (String.mk (fmtDate 2025 5 2))) ∧
    parse_hl7_timestamp (String.mk (tsYMDH 2025 5 2 14)) false =
      .ok (some (String.mk (fmtDT 2025 5 2 14 0 0))) ∧
    parse_hl7_timestamp (String.mk (tsYMDHM 2025 5 2 14 30)) false =
      .ok (some (String.mk (fmtDT 2025 5 2 14 30 0))) ∧
    parse_hl7_timestamp (String.mk (tsYMDHMS 2025 5 2 14 30 55)) false =
      .ok (some (String.mk (fmtDT 2025 5 2 14 30 55))) :=
  spec_C1 2025 5 2 14 30 55 false (by decide) (by decide) (by decide) (by decide)
    (by decide) (by decide) (by decide) (by decide) (by decide)

/-- C6: the three segment accessors are total — modelled as total Lean
functions over arbitrary integer indices — and they return the supplied
default whenever the index is negative or out of range, or the stored
value at that position is empty. -/
theorem spec_C6 (seg : Segment) (i fi ci si : Int) (dflt : String) (sep csep ssep : Char) :
    ((i < 0 ∨ (seg.fields.length : Int) ≤ i) → seg.get_field i dflt = dflt) ∧
    (seg.fields.getD i.toNat "" = "" → seg.get_field i dflt = dflt) ∧
    ((ci < 0 ∨ ((pySplit (seg.get_field fi "") sep).length : Int) ≤ ci) →
      seg.get_component fi ci sep dflt = dflt) ∧
    ((pySplit (seg.get_field fi "") sep).getD ci.toNat "" = "" →
      seg.get_component fi ci sep dflt = dflt) ∧
    ((si < 0 ∨ ((pySplit (seg.get_component fi ci csep "") ssep).length : Int) ≤ si) →
      seg.get_subcomponent fi ci si csep ssep dflt = dflt) ∧
    ((pySplit (seg.get_component fi ci csep "") ssep).getD si.toNat "" = "" →
      seg.get_subcomponent fi ci si csep ssep dflt = dflt) := by
  refine ⟨fun h => ?_, fun h => ?_, fun h => ?_, fun h => ?_, fun h => ?_, fun h => ?_⟩
  · unfold Segment.get_field
    rw [if_pos h]
  · unfold Segment.get_field
    split
    · rfl
    · rw [h, if_pos rfl]
  · simp only [Segment.get_component]
    by_cases hfv : seg.get_field fi "" = ""
    · rw [if_pos hfv]
    · rw [if_neg hfv, if_pos h]
  · simp only [Segment.get_component]
    by_cases hfv : seg.get_field fi "" = ""
    · rw [if_pos hfv]
    · rw [if_neg hfv]
      split
      · rfl
      · simp [h]
  · simp only [Segment.get_subcomponent]
    by_cases hcv : seg.get_component fi ci csep "" = ""
    · rw [if_pos hcv]
    · rw [if_neg hcv, if_pos h]
  · simp only [Segment.get_subcomponent]
    by_cases hcv : seg.get_component fi ci csep "" = ""
    · rw [if_pos hcv]
    · rw [if_neg hcv]
      split
      · rfl
      · simp [h]

/-- Witness for C6: concrete out-of-range (including negative) indices
and concrete empty stored values all yield the default. -/
theorem spec_C6_witness :
    (Segment.get_field ⟨"SCH", ["SCH", "x"], ""⟩ (-1) "D" = "D") ∧
    (Segment.get_field ⟨"SCH", ["SCH", ""], ""⟩ 1 "D" = "D") ∧
    (Segment.get_component ⟨"SCH", ["SCH", "a^b"], ""⟩ 1 5 '^' "D" = "D") ∧
    (Segment.get_component ⟨"SCH", ["SCH", "a^^b"], ""⟩ 1 1 '^' "D" = "D") ∧
    (Segment.get_subcomponent ⟨"SCH", ["SCH", "a&b"], ""⟩ 1 0 (-2) '^' '&' "D" = "D") ∧
    (Segment.get_subcomponent ⟨"SCH", ["SCH", "a&&b"], ""⟩ 1 0 1 '^' '&' "D" = "D") :=
  ⟨(spec_C6 ⟨"SCH", ["SCH", "x"], ""⟩ (-1) 0 0 0 "D" '^' '^' '&').1 (by decide),
   (spec_C6 ⟨"SCH", ["SCH", ""], ""⟩ 1 0 0 0 "D" '^' '^' '&').2.1 (by decide),
   (spec_C6 ⟨"SCH", ["SCH", "a^b"], ""⟩ 0 1 5 0 "D" '^' '^' '&').2.2.1 (by decide),
   (spec_C6 ⟨"SCH", ["SCH", "a^^b"], ""⟩ 0 1 1 0 "D" '^' '^' '&').2.2.2.1 (by decide),
   (spec_C6 ⟨"SCH", ["SCH", "a&b"], ""⟩ 0 1 0 (-2) "D" '^' '^' '&').2.2.2.2.1 (by decide),
   (spec_C6 ⟨"SCH", ["SCH", "a&&b"], ""⟩ 0 1 0 1 "D" '^' '^' '&').2.2.2.2.2 (by decide)⟩

/-- C7: deterministic fallback order — when both the filler id (SCH-2
component 0) and the placer id (SCH-1 component 0) are nonempty the
filler id is extracted, and when both the attending (PV1-7) and
admitting (PV1-17) fields yield a nonempty identifier the attending
provider is extracted. -/
theorem spec_C7 (d : Delimiters) (sch pv1 : Segment)
    (hf : sch.get_component 2 0 d.component "" ≠ "")
    (hp : sch.get_component 1 0 d.component "" ≠ "")
    (ha : (extract_xcn_field d pv1 7).1 ≠ "")
    (hm : (extract_xcn_field d pv1 17).1 ≠ "") :
    extract_appointment_id d sch = sch.get_component 2 0 d.component "" ∧
    extract_provider d pv1 =
      some { id := (extract_xcn_field d pv1 7).1,
             name := if (extract_xcn_field d pv1 7).2 = "" then none
                     else some (extract_xcn_field d pv1 7).2 } := by
  constructor
  · unfold extract_appointment_id
    rw [if_pos hf]
  · simp only [extract_provider, if_neg ha]
    rw [if_neg (fun hc => ha hc.1)]

/-- Witness for C7 on a segment pair carrying both candidate values. -/
theorem spec_C7_witness :
    extract_appointment_id {} ⟨"SCH", ["SCH", "PL1", "FL2^x"], ""⟩ = "FL2" ∧
    extract_provider {}
        ⟨"PV1", ["PV1", "1", "O", "L", "", "", "", "AT1^Att^Amy", "", "", "", "", "", "", "",
          "", "", "AD1^Adm^Al"], ""⟩ =
      some { id := "AT1", name := some "Amy Att" } := by
  have h := spec_C7 {} ⟨"SCH", ["SCH", "PL1", "FL2^x"], ""⟩
    ⟨"PV1", ["PV1", "1", "O", "L", "", "", "", "AT1^Att^Amy", "", "", "", "", "", "", "",
      "", "", "AD1^Adm^Al"], ""⟩ (by decide) (by decide) (by decide) (by decide)
  exact ⟨h.1.trans (by decide), h.2.trans (by decide)⟩

set_option maxHeartbeats 1600000 in
/-- C9: delimiter validation fails exactly when some delimiter is
alphanumeric or whitespace or two delimiters coincide, every failure is
a `MalformedSegment` error, and a set of five distinct legal characters
passes. -/
theorem spec_C9 (d : Delimiters) :
    (isOkB (validateDelimiters d) = false ↔
      (badDelimChar d.field = true ∨ badDelimChar d.component = true ∨
        badDelimChar d.repetition = true ∨ badDelimChar d.escape = true ∨
        badDelimChar d.subcomponent = true ∨
        d.component = d.field ∨ d.repetition = d.field ∨ d.repetition = d.component ∨
        d.escape = d.field ∨ d.escape = d.component ∨ d.escape = d.repetition ∨
        d.subcomponent = d.field ∨ d.subcomponent = d.component ∨
        d.subcomponent = d.repetition ∨ d.subcomponent = d.escape)) ∧
    (∀ e, validateDelimiters d = .error e → ∃ st r, e = .malformedSegment st r) := by
  unfold validateDelimiters
  split_ifs with h1 h2 h3 h4 h5 h6 h7 h8 h9
  all_goals refine ⟨?_, fun e he => ?_⟩
  all_goals try (injection he with h; exact ⟨_, _, h.symm⟩)
  all_goals try exact absurd he (by simp)
  all_goals try (simp [isOkB]; tauto)
  · simp only [Bool.not_eq_true] at h1 h2 h3 h4 h5
    simp only [isOkB]
    push_neg at h7 h8 h9
    refine iff_of_false (by simp) ?_
    rintro (hc | hc | hc | hc | hc | hc | hc | hc | hc | hc | hc | hc | hc | hc | hc)
    exacts [by simp [h1] at hc, by simp [h2] at hc, by simp [h3] at hc,
      by simp [h4] at hc, by simp [h5] at hc, h6 hc, h7.1 hc, h7.2 hc,
      h8.1 hc, h8.2.1 hc, h8.2.2 hc, h9.1 hc, h9.2.1 hc, h9.2.2.1 hc, h9.2.2.2 hc]

/-- Witness for C9: the default delimiter set passes validation, and a
set with a duplicated character is rejected. -/
theorem spec_C9_witness :
    isOkB (validateDelimiters {}) = true ∧
    isOkB (validateDelimiters { component := '|' }) = false := by
  constructor
  · have h := (spec_C9 {}).1
    rcases hv : isOkB (validateDelimiters {}) with _ | _
    · exact absurd ((h.mp) hv) (by decide)
    · rfl
  · exact (spec_C9 { component := '|' }).1.mpr (by decide)

/-- C8: parsing an input that is empty or consists only of whitespace
returns the empty result list and raises nothing, in both modes. -/
theorem spec_C8 (s : String) (strict : Bool) (h : ∀ c ∈ s.data, pyIsSpace c = true) :
    parse_hl7_message s strict = .ok [] := by
  unfold parse_hl7_message strip
  have hs : pyStrip s.data = [] := by
    unfold pyStrip
    rw [List.dropWhile_eq_nil_iff.mpr h]
    rfl
  rw [hs, if_pos rfl]

/-- Witness for C8 at the three concrete inputs of the spec scenario. -/
theorem spec_C8_witness :
    parse_hl7_message "" false = .ok [] ∧
    parse_hl7_message "   " false = .ok [] ∧
    parse_hl7_message "\n\n" true = .ok [] :=
  ⟨spec_C8 "" false (by decide), spec_C8 "   " false (by decide),
   spec_C8 "\n\n" true (by decide)⟩

theorem mem_keys_strEntry {x k : String} {o : Option String}
    (h : x ∈ dictKeys (strEntryIfTruthy k o)) : x = k := by
  cases o with
  | none => simp [strEntryIfTruthy, dictKeys] at h
  | some v =>
    by_cases hv : v = ""
    · simp [strEntryIfTruthy, dictKeys, hv] at h
    · simp [strEntryIfTruthy, dictKeys, hv] at h
      exact h

theorem appointment_id_key_absent {a : Appointment} (ha : a.appointment_id = "") :
    "appointment_id" ∉ dictKeys a.to_dict := by
  intro hmem
  unfold Appointment.to_dict at hmem
  rw [ha, if_pos rfl] at hmem
  simp only [List.nil_append, dictKeys, List.map_append, List.mem_append] at hmem
  have notk : ∀ k : String, k ≠ "appointment_id" → ∀ o : Option String,
      "appointment_id" ∉ List.map Prod.fst (strEntryIfTruthy k o) := by
    intro k hk o hx
    exact hk (mem_keys_strEntry (x := "appointment_id") (k := k) hx).symm
  rcases hmem with ((((((h | h) | h) | h) | h) | h) | h)
  · exact notk _ (by decide) _ h
  · rcases hp : a.patient with _ | p <;> rw [hp] at h <;> simp at h
  · rcases hq : a.provider with _ | q <;> rw [hq] at h <;> simp at h
  · exact notk _ (by decide) _ h
  · exact notk _ (by decide) _ h
  · exact notk _ (by decide) _ h
  · exact notk _ (by decide) _ h

/-- C10: serialization omits the `appointment_id` key whenever the
appointment id is the empty string, and an appointment extracted (in
lenient mode) from a Scheduling segment with neither filler nor placer
id has an empty id and therefore an output record with no
`appointment_id` key at all. -/
theorem spec_C10 (a : Appointment) (d : Delimiters) (sch : Segment)
    (m : List (String × Segment)) (idx : Nat)
    (ha : a.appointment_id = "")
    (hf : sch.get_component 2 0 d.component "" = "")
    (hpl : sch.get_component 1 0 d.component "" = "")
    (hm : m.lookup "SCH" = some sch) :
    "appointment_id" ∉ dictKeys a.to_dict ∧
    extract_appointment_id d sch = "" ∧
    (∃ r, extractAppointment d m false idx = .ok r ∧
      r.appointment.appointment_id = "" ∧
      "appointment_id" ∉ dictKeys r.appointment.to_dict) := by
  have hid : extract_appointment_id d sch = "" := by
    unfold extract_appointment_id
    rw [if_neg (fun hn => hn hf)]
    exact hpl
  refine ⟨appointment_id_key_absent ha, hid, ?_⟩
  rcases h2 : m.lookup "PID" with _ | pid <;> rcases h3 : m.lookup "PV1" with _ | pv1 <;>
    (unfold extractAppointment
     rw [hm, h2, h3]
     simp only [bind, Except.bind, pure, Except.pure]
     exact ⟨_, rfl, hid, appointment_id_key_absent hid⟩)

/-- Witness for C10 on a Scheduling segment with no ids at all. -/
theorem spec_C10_witness :
    "appointment_id" ∉ dictKeys (Appointment.to_dict { appointment_id := "" }) ∧
    extract_appointment_id {} ⟨"SCH", ["SCH"], ""⟩ = "" := by
  have h := spec_C10 { appointment_id := "" } {} ⟨"SCH", ["SCH"], ""⟩
    [("SCH", ⟨"SCH", ["SCH"], ""⟩)] 0 rfl (by decide) (by decide) rfl
  exact ⟨h.1, h.2.1⟩

/-- C4: a missing Scheduling segment raises `MissingSegment "SCH"` in
strict mode but in lenient mode only appends a warning and sets the
appointment id to the sentinel `UNKNOWN`; a missing Patient segment
(with Scheduling present) raises `MissingSegment "PID"` in strict mode
but in lenient mode only warns and leaves the patient absent; a missing
Provider/visit segment never raises in either mode and always only
appends a warning. -/
theorem spec_C4 (d : Delimiters) (m : List (String × Segment)) (idx : Nat) :
    (m.lookup "SCH" = none →
      extractAppointment d m true idx = .error (.missingSegment "SCH")) ∧
    (m.lookup "SCH" = none → ∃ r, extractAppointment d m false idx = .ok r ∧
      r.appointment.appointment_id = "UNKNOWN" ∧ schWarn ∈ r.warnings) ∧
    (∀ sch, m.lookup "SCH" = some sch → m.lookup "PID" = none →
      extractAppointment d m true idx = .error (.missingSegment "PID")) ∧
    (m.lookup "PID" = none → ∃ r, extractAppointment d m false idx = .ok r ∧
      r.appointment.patient = none ∧ pidWarn ∈ r.warnings) ∧
    (m.lookup "PV1" = none → ∃ r, extractAppointment d m false idx = .ok r ∧
      pv1Warn ∈ r.warnings) ∧
    (∀ sch pid, m.lookup "SCH" = some sch → m.lookup "PID" = some pid →
      m.lookup "PV1" = none → ∃ r, extractAppointment d m true idx = .ok r ∧
        pv1Warn ∈ r.warnings) := by
  refine ⟨fun h1 => ?_, fun h1 => ?_, fun sch h1 h2 => ?_, fun h2 => ?_, fun h3 => ?_,
    fun sch pid h1 h2 h3 => ?_⟩
  · unfold extractAppointment
    rw [h1]
    rfl
  · rcases h2 : m.lookup "PID" with _ | pid <;> rcases h3 : m.lookup "PV1" with _ | pv1 <;>
      (unfold extractAppointment
       rw [h1, h2, h3]
       simp only [bind, Except.bind, pure, Except.pure]
       exact ⟨_, rfl, rfl, by simp⟩)
  · unfold extractAppointment
    rw [h1, h2]
    rfl
  · rcases h1 : m.lookup "SCH" with _ | sch <;> rcases h3 : m.lookup "PV1" with _ | pv1 <;>
      (unfold extractAppointment
       rw [h1, h2, h3]
       simp only [bind, Except.bind, pure, Except.pure]
       exact ⟨_, rfl, rfl, by simp⟩)
  · rcases h1 : m.lookup "SCH" with _ | sch <;> rcases h2 : m.lookup "PID" with _ | pid <;>
      (unfold extractAppointment
       rw [h1, h2, h3]
       simp only [bind, Except.bind, pure, Except.pure]
       exact ⟨_, rfl, by simp⟩)
  · unfold extractAppointment
    rw [h1, h2, h3]
    simp only [bind, Except.bind, pure, Except.pure]
    exact ⟨_, rfl, by simp⟩

/-- Witness for C4: with no segments at all, strict extraction fails on
the Scheduling segment; with only a Scheduling segment, strict
extraction fails on the Patient segment. -/
theorem spec_C4_witness :
    extractAppointment {} [] true 0 = .error (.missingSegment "SCH") ∧
    extractAppointment {} [("SCH", ⟨"SCH", ["SCH"], ""⟩)] true 0 =
      .error (.missingSegment "PID") :=
  ⟨(spec_C4 {} [] 0).1 rfl,
   (spec_C4 {} [("SCH", ⟨"SCH", ["SCH"], ""⟩)] 0).2.2.1 ⟨"SCH", ["SCH"], ""⟩ rfl rfl⟩

/-- C5: a header declaring a message type other than `SIU`, or a
present trigger event other than `S12`, makes validation raise
`InvalidMessageType` naming `SIU^S12` as expected and `TYPE^TRIGGER`
(or plain `TYPE` when no trigger is present) as actual; in particular
parsing a full message whose header declares `ADT^A01` raises
`InvalidMessageType` citing `ADT^A01` and `SIU^S12`. -/
theorem spec_C5 (d : Delimiters) (m : List (String × Segment)) (msh : Segment) (t e : String)
    (hm : m.lookup "MSH" = some msh)
    (hok : ¬(msh.fields.length < 3 ∨ msh.fields.getD 2 "" = ""))
    (hte : extract_message_type d msh = (t, e)) :
    (t ≠ "SIU" → validateMessageType d m =
      .error (.invalidMessageType "SIU^S12" (if e = "" then t else t ++ "^" ++ e))) ∧
    (t = "SIU" → e ≠ "" → e ≠ "S12" → validateMessageType d m =
      .error (.invalidMessageType "SIU^S12" (t ++ "^" ++ e))) ∧
    parse_hl7_message "MSH|^~\\&|A|B|C|D|E|F|ADT^A01|X1" false =
      .error (.invalidMessageType "SIU^S12" "ADT^A01") := by
  refine ⟨fun ht => ?_, fun ht he hs => ?_, by decide⟩
  · unfold validateMessageType
    rw [hm]
    simp only [hte]
    rw [if_neg hok, if_pos ht]
  · unfold validateMessageType
    rw [hm]
    simp only [hte]
    rw [if_neg hok, if_neg (fun hn => hn ht), if_pos ⟨he, hs⟩, if_neg he]

/-- Witness for C5: a header with type `ADT^A01` and one with trigger
`S99` are both rejected with the expected-vs-actual pair. -/
theorem spec_C5_witness :
    validateMessageType {}
        [("MSH", ⟨"MSH", ["MSH", "|", "^~\\&", "A", "B", "C", "D", "E", "F", "ADT^A01"], ""⟩)] =
      .error (.invalidMessageType "SIU^S12" "ADT^A01") ∧
    validateMessageType {}
        [("MSH", ⟨"MSH", ["MSH", "|", "^~\\&", "A", "B", "C", "D", "E", "F", "SIU^S99"], ""⟩)] =
      .error (.invalidMessageType "SIU^S12" "SIU^S99") := by
  constructor
  · have h := spec_C5 {}
      [("MSH", ⟨"MSH", ["MSH", "|", "^~\\&", "A", "B", "C", "D", "E", "F", "ADT^A01"], ""⟩)]
      ⟨"MSH", ["MSH", "|", "^~\\&", "A", "B", "C", "D", "E", "F", "ADT^A01"], ""⟩
      "ADT" "A01" rfl (by decide) (by decide)
    exact (h.1 (by decide)).trans (by decide)
  · have h := spec_C5 {}
      [("MSH", ⟨"MSH", ["MSH", "|", "^~\\&", "A", "B", "C", "D", "E", "F", "SIU^S99"], ""⟩)]
      ⟨"MSH", ["MSH", "|", "^~\\&", "A", "B", "C", "D", "E", "F", "SIU^S99"], ""⟩
      "SIU" "S99" rfl (by decide) (by decide)
    exact h.2.1 rfl (by decide) (by decide)

/-- C3 (code defect, evaluated): delimiters are not re-detected
independently per message.  The first message legitimately swaps the
field and component separators (field `^`, component `|`) and parses
successfully on its own; the second message `MSH|AB` has a header too
short to carry encoding characters.  Parsed alone, `MSH|AB` fails with
`InvalidMessageTypeError` (its declared type is empty); parsed as the
second message of the file, the component separator `|` carried over
from the first message collides with the re-detected field separator
`|` and the run fails with `MalformedSegmentError` instead — so the
outcome of a message depends on the message before it, and a short
header does not fall back to the default delimiters. -/
theorem spec_C3_eval :
    errCtor (parse_hl7_message "MSH^|~\\&^A^B^C^D^E^F^SIU|S12^CTRL1\nMSH|AB" false) =
      "MalformedSegmentError" ∧
    errCtor (parse_hl7_message "MSH|AB" false) = "InvalidMessageTypeError" ∧
    errCtor (parse_hl7_message "MSH^|~\\&^A^B^C^D^E^F^SIU|S12^CTRL1" false) = "ok" :=
  ⟨by decide, by decide, by decide⟩

end HL7
